import Mathlib

/-!
Verification of the Exa Dify plugin tools (`exa_search.py`, `exa_similar.py`,
`exa_anwser.py`, `exa_contents.py`) against their natural-language
specification.  Python runtime values that flow through the tools are
shallowly embedded as `JVal` (JSON-like values); the tools' `_invoke`
generators are embedded as pure functions from the tool parameters and an
environment (credentials, the outcome of the single outbound HTTP call) to
the finite list of messages they yield, together with the payload sent on
the wire (if any).  Python exceptions raised inside the `try` block are
embedded with `Except String`.
-/

namespace ExaSpec

/-- JSON-like values: the shallow embedding of the Python data handled by the
tools (tool parameters, request payloads, decoded API responses). -/
inductive JVal where
  | jnull : JVal
  | jbool : Bool → JVal
  | jnum : Int → JVal
  | jstr : String → JVal
  | jarr : List JVal → JVal
  | jobj : List (String × JVal) → JVal

/-- Python truthiness (`bool(v)`). -/
def pyTruthy : JVal → Bool
  | .jnull => false
  | .jbool b => b
  | .jnum n => n != 0
  | .jstr s => s ≠ ""
  | .jarr xs => ¬ xs.isEmpty
  | .jobj fs => ¬ fs.isEmpty

/-- Python `str(v)` as used by f-string interpolation.  Container reprs are
abbreviated (no claim depends on the exact repr of a nested container). -/
def pyStr : JVal → String
  | .jnull => "None"
  | .jbool true => "True"
  | .jbool false => "False"
  | .jnum n => toString n
  | .jstr s => s
  | .jarr _ => "[...]"
  | .jobj _ => "\x7b...\x7d"

/-- Python `len(v)`; raises `TypeError` on numbers, booleans and `None`. -/
def pyLen : JVal → Except String Nat
  | .jstr s => .ok s.length
  | .jarr xs => .ok xs.length
  | .jobj fs => .ok fs.length
  | _ => .error "object has no len()"

/-- Python iteration (`for x in v`): lists yield elements, strings yield
one-character strings, dicts yield their keys; other values raise. -/
def pyIter : JVal → Except String (List JVal)
  | .jarr xs => .ok xs
  | .jstr s => .ok (s.toList.map (fun c => .jstr (String.singleton c)))
  | .jobj fs => .ok (fs.map (fun kv => .jstr kv.1))
  | _ => .error "object is not iterable"

/-- Dict lookup used where the receiver is already known to be a dict;
`none` on a non-dict (callers guard that case separately). -/
def jlookup (v : JVal) (k : String) : Option JVal :=
  match v with
  | .jobj fs => fs.lookup k
  | _ => none

/-- Occurrence of `needle` as a contiguous sublist. -/
def listContainsSub (needle : List Char) : List Char → Bool
  | [] => needle.isEmpty
  | c :: rest => needle.isPrefixOf (c :: rest) || listContainsSub needle rest

/-- Python `k in v` for a string key: key membership for dicts, element
membership for lists, substring test for strings; raises on numbers. -/
def pyContainsE : JVal → String → Except String Bool
  | .jobj fs, k => .ok (fs.any (fun kv => kv.1 == k))
  | .jarr xs, k =>
    .ok (xs.any (fun v => match v with | .jstr s => s == k | _ => false))
  | .jstr s, k => .ok (listContainsSub k.toList s.toList)
  | _, _ => .error "argument is not a container"

/-- Python `v.get(k, dflt)`: raises `AttributeError` on a non-dict. -/
def pyGetD (v : JVal) (k : String) (dflt : JVal) : Except String JVal :=
  match v with
  | .jobj fs => .ok ((fs.lookup k).getD dflt)
  | _ => .error "object has no attribute get"

/-- Python `v[k]` for a string key: dict indexing; raises `TypeError` on
lists and strings (string indices must be integers). -/
def pyIndex : JVal → String → Except String JVal
  | .jobj fs, k =>
    match fs.lookup k with
    | some v => .ok v
    | none => .error ("KeyError: " ++ k)
  | _, _ => .error "indices must be integers"

/-- Python `f"{v:.2f}"`: defined for numbers (booleans count as 0/1),
raises for anything else.  The embedded numbers are integers, so the
rendering is always `n.00`. -/
def pyFmt2f : JVal → Except String String
  | .jnum n => .ok (toString n ++ ".00")
  | .jbool true => .ok "1.00"
  | .jbool false => .ok "0.00"
  | _ => .error "unsupported format string"

/-- Characters stripped by Python `str.strip()` (the ASCII whitespace set;
no input in this development contains the rarer Unicode spaces). -/
def isPyWS (c : Char) : Bool :=
  c = ' ' || c = '\t' || c = '\n' || c = '\r' || c = '\x0b' || c = '\x0c'

/-- Strip characters satisfying `p` from both ends of a character list. -/
def stripEnds (p : Char → Bool) (cs : List Char) : List Char :=
  ((cs.dropWhile p).reverse.dropWhile p).reverse

/-- Python `s.strip()`. -/
def pyStrip (s : String) : String := String.mk (stripEnds isPyWS s.toList)

/-- Python `s.split(",")`: split at every comma, keeping empty pieces. -/
def splitChars (p : Char → Bool) : List Char → List (List Char)
  | [] => [[]]
  | c :: cs =>
    let r := splitChars p cs
    if p c then [] :: r
    else
      match r with
      | t :: ts => (c :: t) :: ts
      | [] => [[c]]

/-- `[d.strip() for d in s.split(",")] if s else []` (domain-list parsing
shared by the search tool). -/
def domainsList (s : String) : List String :=
  if s = "" then []
  else (splitChars (fun c => c = ',') s.toList).map (fun cs => pyStrip (String.mk cs))

/-- The truncation step the formatters apply to long free-text fields:
`s[:budget] + marker` when `len(s) > budget`, `s` unchanged otherwise. -/
def pyTruncate (budget : Nat) (marker : String) (s : String) : String :=
  if s.length > budget then String.mk (s.toList.take budget) ++ marker else s

/-- Answer-tool source excerpt: 300-character budget (exa_anwser.py line 133). -/
def answer_excerpt (s : String) : String := pyTruncate 300 "..." s

/-- Search-tool content excerpt: 500-character budget (exa_search.py line 219). -/
def search_excerpt (s : String) : String := pyTruncate 500 "..." s

/-- Similar-tool content excerpt: 500-character budget (exa_similar.py line 140). -/
def similar_excerpt (s : String) : String := pyTruncate 500 "..." s

/-- Contents-tool primary body preview: 1000-character budget with a longer
marker (exa_contents.py line 244). -/
def contents_text_preview (s : String) : String :=
  pyTruncate 1000 "...\n(content truncated for readability)" s

/-- Contents-tool nested subpage preview: 500-character budget
(exa_contents.py line 266). -/
def subpage_text_preview (s : String) : String := pyTruncate 500 "..." s

/-! ### URL-list parsing (`ExaContentsTool._parse_urls_string`) -/

/-- Separator class of the regex `[,，\s;]+` in `_parse_urls_string`: ASCII
comma, full-width comma (U+FF0C), whitespace, ASCII semicolon.  The
full-width semicolon (U+FF1B) is not in the class. -/
def urlSep (c : Char) : Bool := c = ',' || c = '，' || isPyWS c || c = ';'

/-- Characters removed by `url.strip(" \x27\x22")` on each split piece. -/
def isQuoteSpace (c : Char) : Bool := c = ' ' || c = '\x27' || c = '"'

/-- Python `s.startswith(("http://", "https://"))` on the code-point list. -/
def hasSchemeChars (cs : List Char) : Bool :=
  "http://".toList.isPrefixOf cs || "https://".toList.isPrefixOf cs

/-- Scheme defaulting of `_parse_urls_string`: prepend `https://` when the
entry lacks a scheme prefix. -/
def addScheme (s : String) : String :=
  if hasSchemeChars s.toList then s else "https://" ++ s

/-- Per-piece cleanup of `_parse_urls_string`: strip quotes/spaces, drop the
piece if empty, otherwise default the scheme. -/
def cleanPart (part : List Char) : Option String :=
  let u := stripEnds isQuoteSpace part
  if u.isEmpty then none else some (addScheme (String.mk u))

/-- `cleaned_string[1:]` when the cleaned string starts with `[`. -/
def dropBracketL (cs : List Char) : List Char :=
  if cs.head? = some '[' then cs.tail else cs

/-- `cleaned_string[:-1]` when the string ends with `]`. -/
def dropBracketR (cs : List Char) : List Char :=
  if cs.getLast? = some ']' then cs.dropLast else cs

/-- `ExaContentsTool._parse_urls_string`: strip, remove surrounding square
brackets, split on the separator class, clean each piece, prefix schemes.
Splitting at every separator character and then discarding empty pieces is
equivalent to the source's split on maximal separator runs. -/
def parse_urls_string (s : String) : List String :=
  let c := dropBracketR (dropBracketL (stripEnds isPyWS s.toList))
  (splitChars urlSep c).filterMap cleanPart

/-! ### Messages, dispatch outcomes, invocation results -/

/-- A `ToolInvokeMessage` yielded by a tool: structured JSON, plain text, or
a named variable output. -/
inductive Msg where
  | json : JVal → Msg
  | text : String → Msg
  | var : String → JVal → Msg

/-- Outcome of the single outbound `requests.post` call.  `transportError`
is a `RequestException` without a response (connection error, timeout);
`httpError` is a non-2xx status turned into an exception by
`raise_for_status` (carrying `str(e)`, the status code and the response
body); `badJson` is a 2xx response whose body fails to decode;
`ok` is a 2xx response with a decoded JSON body. -/
inductive Dispatch where
  | transportError : String → Dispatch
  | httpError : String → Int → String → Dispatch
  | badJson : String → Dispatch
  | ok : JVal → Dispatch

/-- What one `_invoke` run produces: the yielded messages in order, and the
payload handed to `requests.post` (`none` when no HTTP call was made). -/
structure InvokeResult where
  msgs : List Msg
  sent : Option (List (String × JVal))

/-- The error pair every failure handler emits: one structured
`{status: "error", error: m}` message and one plain-text message
`"Error: " + m` carrying the same message. -/
def errPair (m : String) : List Msg :=
  [Msg.json (.jobj [("status", .jstr "error"), ("error", .jstr m)]),
   Msg.text ("Error: " ++ m)]

/-- The message built in the `requests.RequestException` handlers:
`str(e)`, extended with status code and body when a response is present. -/
def dispatchFailMsg (pre : String) : Dispatch → Option String
  | .transportError t => some (pre ++ t)
  | .httpError t st b =>
    some (pre ++ t ++ " - Status code: " ++ toString st ++ " - Response: " ++ b)
  | .badJson t => some ("Error: " ++ t)
  | .ok _ => none

/-! ### Search tool (`ExaSearchTool`) -/

/-- The named parameters the search tool reads from `tool_parameters`
(a field is `none` when the caller did not supply it). -/
structure SearchParams where
  query : Option String
  search_type : Option String
  num_results : Option Int
  include_domains : Option String
  exclude_domains : Option String
  start_published_date : Option String
  end_published_date : Option String
  use_autoprompt : Option Bool
  text_contents : Option Bool
  highlight_results : Option Bool
  category : Option String
  includeText : Option String
  excludeText : Option String

/-- The search payload as first built (exa_search.py lines 63-75): each
entry still carries `none` for the `None` placeholders that the following
dict comprehension filters out. -/
def searchPayloadEntries (q : String) (p : SearchParams) : List (String × Option JVal) :=
  let search_type := p.search_type.getD "neural"
  let inc := domainsList (p.include_domains.getD "")
  let exc := domainsList (p.exclude_domains.getD "")
  let spd := p.start_published_date.getD ""
  let epd := p.end_published_date.getD ""
  [("query", some (.jstr q)),
   ("numResults", some (.jnum (p.num_results.getD 10))),
   ("useAutoprompt", some (.jbool (p.use_autoprompt.getD true))),
   ("type", if search_type ≠ "auto" then some (.jstr search_type) else none),
   ("includeDomains", if inc ≠ [] then some (.jarr (inc.map .jstr)) else none),
   ("excludeDomains", if exc ≠ [] then some (.jarr (exc.map .jstr)) else none),
   ("startPublishedDate", if spd ≠ "" then some (.jstr spd) else none),
   ("endPublishedDate", if epd ≠ "" then some (.jstr epd) else none),
   ("category", p.category.map .jstr),
   ("includeText",
     match p.includeText with
     | some t => if t ≠ "" then some (.jarr [.jstr t]) else none
     | none => none),
   ("excludeText",
     match p.excludeText with
     | some t => if t ≠ "" then some (.jarr [.jstr t]) else none
     | none => none)]

/-- The `contents` options dict (exa_search.py lines 81-85); note the code
defaults `text_contents` to `True`. -/
def contentsOptions (p : SearchParams) : List (String × JVal) :=
  (if p.text_contents.getD true then [("text", JVal.jbool true)] else [])
  ++ (if p.highlight_results.getD false then [("highlights", JVal.jbool true)] else [])

/-- The outgoing search payload: the `None`-filtering dict comprehension
(line 78) followed by the conditional `contents` insertion (lines 87-88). -/
def searchPayload (q : String) (p : SearchParams) : List (String × JVal) :=
  (searchPayloadEntries q p).filterMap (fun kv => kv.2.map (fun v => (kv.1, v)))
  ++ (if (contentsOptions p).isEmpty then []
      else [("contents", .jobj (contentsOptions p))])

/-! ### Formatters

Each `_format_results_as_markdown` is embedded as an `Except String String`
function: `.error` marks a point where the Python code would raise (caught
by the generic handler of `_invoke`).  Raise points are modelled with
abbreviated exception texts.  One deliberate simplification: a truthy
non-string `text` field is modelled as a raise, while CPython would slice
and repr a list-valued `text`; no claim exercises that corner. -/

/-- `f"**... Score:** {result[\x27score\x27]:.2f}\n"` when `"score" in result`. -/
def scoreLine (label : String) (fs : List (String × JVal)) : Except String String :=
  match fs.lookup "score" with
  | some sv =>
    match pyFmt2f sv with
    | .ok f => .ok (label ++ f ++ "\n")
    | .error e => .error e
  | none => .ok ""

/-- The highlights block of the search formatter (exa_search.py 209-213). -/
def highlightsBlock (fs : List (String × JVal)) : Except String String :=
  match fs.lookup "highlights" with
  | some hv =>
    if pyTruthy hv then
      match pyIter hv with
      | .ok items =>
        .ok ("**Highlights:**\n\n"
          ++ String.join (items.map (fun h => "> " ++ pyStr h ++ "\n")) ++ "\n")
      | .error e => .error e
    else .ok ""
  | none => .ok ""

/-- The guarded, truncated code-fence block for a `text` field, shared by
all four formatters (the label and the truncation budget differ per site). -/
def textBlock (label : String) (trunc : String → String)
    (fs : List (String × JVal)) : Except String String :=
  match fs.lookup "text" with
  | some (.jstr t) =>
    .ok (if t ≠ "" then label ++ "```\n" ++ trunc t ++ "\n```\n\n" else "")
  | some tv => if pyTruthy tv then .error "text field is not a string" else .ok ""
  | none => .ok ""

/-- One result item of the search formatter (exa_search.py 181-225). -/
def formatSearchItem (i : Nat) (result : JVal) : Except String String :=
  match result with
  | .jobj fs =>
    let title := (fs.lookup "title").getD (.jstr "No title")
    let url := (fs.lookup "url").getD (.jstr "")
    let domain := (fs.lookup "domain").getD (.jstr "Unknown source")
    let published_date := (fs.lookup "publishedDate").getD (.jstr "")
    let author := (fs.lookup "author").getD (.jstr "")
    let image_url := (fs.lookup "image").getD (.jstr "")
    let s1 := "### " ++ toString i ++ ". [" ++ pyStr title ++ "](" ++ pyStr url ++ ")\n\n"
    let s2 := if pyTruthy image_url then
        "![Image from " ++ pyStr domain ++ "](" ++ pyStr image_url ++ ")\n\n" else ""
    let s3 := "**Source:** " ++ pyStr domain ++ "\n"
    let s4 := if pyTruthy published_date then
        "**Published:** " ++ pyStr published_date ++ "\n" else ""
    let s5 := if pyTruthy author then "**Author:** " ++ pyStr author ++ "\n" else ""
    match scoreLine "**Relevance Score:** " fs with
    | .error e => .error e
    | .ok s6 =>
      match highlightsBlock fs with
      | .error e => .error e
      | .ok s7 =>
        match textBlock "**Content Excerpt:**\n\n" search_excerpt fs with
        | .error e => .error e
        | .ok s8 =>
          .ok (s1 ++ s2 ++ s3 ++ s4 ++ s5 ++ s6 ++ "\n" ++ s7 ++ s8 ++ "---\n\n")
  | _ => .error "object has no attribute get"

/-- `enumerate(results, 1)` over the item formatter. -/
def formatSearchItems (i : Nat) : List JVal → Except String String
  | [] => .ok ""
  | r :: rs =>
    match formatSearchItem i r with
    | .error e => .error e
    | .ok s =>
      match formatSearchItems (i + 1) rs with
      | .error e => .error e
      | .ok rest => .ok (s ++ rest)

/-- `ExaSearchTool._format_results_as_markdown`. -/
def searchFormat (resp : JVal) (query : String) : Except String String :=
  match resp with
  | .jobj fs =>
    let results := (fs.lookup "results").getD (.jarr [])
    match pyLen results with
    | .error e => .error e
    | .ok n =>
      let header := "## Exa Search Results\n\n**Query:** " ++ query
        ++ "\n\n**Total Results:** " ++ toString n ++ "\n\n"
      if pyTruthy results then
        match pyIter results with
        | .error e => .error e
        | .ok items =>
          match formatSearchItems 1 items with
          | .error e => .error e
          | .ok body => .ok (header ++ body)
      else .ok (header ++ "No results found.\n")
  | _ => .error "object has no attribute get"

/-- One result item of the similar-links formatter (exa_similar.py 115-146). -/
def formatSimilarItem (i : Nat) (result : JVal) : Except String String :=
  match result with
  | .jobj fs =>
    let title := (fs.lookup "title").getD (.jstr "No title")
    let url := (fs.lookup "url").getD (.jstr "")
    let domain := (fs.lookup "domain").getD (.jstr "Unknown source")
    let published_date := (fs.lookup "publishedDate").getD (.jstr "")
    let author := (fs.lookup "author").getD (.jstr "")
    let s1 := "### " ++ toString i ++ ". [" ++ pyStr title ++ "](" ++ pyStr url ++ ")\n\n"
    let s2 := "**Source:** " ++ pyStr domain ++ "\n"
    let s3 := if pyTruthy published_date then
        "**Published:** " ++ pyStr published_date ++ "\n" else ""
    let s4 := if pyTruthy author then "**Author:** " ++ pyStr author ++ "\n" else ""
    match scoreLine "**Similarity Score:** " fs with
    | .error e => .error e
    | .ok s5 =>
      match textBlock "**Content Excerpt:**\n\n" similar_excerpt fs with
      | .error e => .error e
      | .ok s6 => .ok (s1 ++ s2 ++ s3 ++ s4 ++ s5 ++ "\n" ++ s6 ++ "---\n\n")
  | _ => .error "object has no attribute get"

/-- `enumerate(results, 1)` over the similar-item formatter. -/
def formatSimilarItems (i : Nat) : List JVal → Except String String
  | [] => .ok ""
  | r :: rs =>
    match formatSimilarItem i r with
    | .error e => .error e
    | .ok s =>
      match formatSimilarItems (i + 1) rs with
      | .error e => .error e
      | .ok rest => .ok (s ++ rest)

/-- `ExaSimilarTool._format_results_as_markdown`. -/
def similarFormat (resp : JVal) (query_url : String) : Except String String :=
  match resp with
  | .jobj fs =>
    let results := (fs.lookup "results").getD (.jarr [])
    match pyLen results with
    | .error e => .error e
    | .ok n =>
      let header := "## Exa Similar Links Results\n\n**Query URL:** " ++ query_url
        ++ "\n\n**Total Results:** " ++ toString n ++ "\n\n"
      if pyTruthy results then
        match pyIter results with
        | .error e => .error e
        | .ok items =>
          match formatSimilarItems 1 items with
          | .error e => .error e
          | .ok body => .ok (header ++ body)
      else .ok (header ++ "No similar links found.\n")
  | _ => .error "object has no attribute get"

/-- One source item of the answer formatter (exa_anwser.py 115-138). -/
def formatAnswerSource (i : Nat) (source : JVal) : Except String String :=
  match source with
  | .jobj fs =>
    let title := (fs.lookup "title").getD (.jstr "No title")
    let url := (fs.lookup "url").getD (.jstr "")
    let author := (fs.lookup "author").getD (.jstr "")
    let published_date := (fs.lookup "publishedDate").getD (.jstr "")
    let s1 := "**" ++ toString i ++ ". [" ++ pyStr title ++ "](" ++ pyStr url ++ ")**\n\n"
    let s2 := if pyTruthy author then "Author: " ++ pyStr author ++ "\n\n" else ""
    let s3 := if pyTruthy published_date then
        "Published: " ++ pyStr published_date ++ "\n\n" else ""
    match textBlock "" answer_excerpt fs with
    | .error e => .error e
    | .ok s4 => .ok (s1 ++ s2 ++ s3 ++ s4 ++ "---\n\n")
  | _ => .error "object has no attribute get"

/-- `enumerate(sources, 1)` over the source-item formatter. -/
def formatAnswerSources (i : Nat) : List JVal → Except String String
  | [] => .ok ""
  | r :: rs =>
    match formatAnswerSource i r with
    | .error e => .error e
    | .ok s =>
      match formatAnswerSources (i + 1) rs with
      | .error e => .error e
      | .ok rest => .ok (s ++ rest)

/-- `ExaAnswerTool._format_results_as_markdown`. -/
def answerFormat (resp : JVal) (query : String) : Except String String :=
  match resp with
  | .jobj fs =>
    let answer := (fs.lookup "answer").getD (.jstr "No answer provided.")
    let sources := (fs.lookup "sources").getD (.jarr [])
    let header := "## Exa Answer Results\n\n**Query:** " ++ query
      ++ "\n\n### Answer\n\n" ++ pyStr answer ++ "\n\n"
    if pyTruthy sources then
      match pyLen sources with
      | .error e => .error e
      | .ok n =>
        match pyIter sources with
        | .error e => .error e
        | .ok items =>
          match formatAnswerSources 1 items with
          | .error e => .error e
          | .ok body =>
            .ok (header ++ "### Sources (" ++ toString n ++ ")\n\n" ++ body)
    else .ok (header ++ "No sources provided.\n\n")
  | _ => .error "object has no attribute get"

/-- Sequence an item renderer over a list, concatenating the pieces. -/
def mapJoinE (f : JVal → Except String String) : List JVal → Except String String
  | [] => .ok ""
  | x :: xs =>
    match f x with
    | .error e => .error e
    | .ok s =>
      match mapJoinE f xs with
      | .error e => .error e
      | .ok rest => .ok (s ++ rest)

/-- One link line of the contents formatter (exa_contents.py 234-237). -/
def renderLink (link : JVal) : Except String String :=
  match link with
  | .jobj fs =>
    let link_url := (fs.lookup "url").getD (.jstr "")
    let link_title := (fs.lookup "title").getD link_url
    .ok ("- [" ++ pyStr link_title ++ "](" ++ pyStr link_url ++ ")\n")
  | _ => .error "object has no attribute get"

/-- One subpage block of the contents formatter (exa_contents.py 255-269). -/
def renderSubpage (sp : JVal) : Except String String :=
  match sp with
  | .jobj fs =>
    let spu := (fs.lookup "url").getD (.jstr "")
    let spt := (fs.lookup "title").getD spu
    let s1 := "#### [" ++ pyStr spt ++ "](" ++ pyStr spu ++ ")\n\n"
    let s2 := match fs.lookup "summary" with
      | some sv => if pyTruthy sv then "**Summary:** " ++ pyStr sv ++ "\n\n" else ""
      | none => ""
    match textBlock "**Content Preview:**\n\n" subpage_text_preview fs with
    | .error e => .error e
    | .ok s3 => .ok (s1 ++ s2 ++ s3)
  | _ => .error "object has no attribute get"

/-- `if "title" in url_data: ... url_data["title"]` (exa_contents.py 224-225). -/
def titlePart (d : JVal) : Except String String :=
  match pyContainsE d "title" with
  | .error e => .error e
  | .ok true =>
    match pyIndex d "title" with
    | .error e => .error e
    | .ok t => .ok ("**Title:** " ++ pyStr t ++ "\n\n")
  | .ok false => .ok ""

/-- `if "summary" in url_data and url_data["summary"]` (exa_contents.py 228-229). -/
def summaryPart (d : JVal) : Except String String :=
  match pyContainsE d "summary" with
  | .error e => .error e
  | .ok true =>
    match pyIndex d "summary" with
    | .error e => .error e
    | .ok sv => .ok (if pyTruthy sv then "**Summary:**\n\n" ++ pyStr sv ++ "\n\n" else "")
  | .ok false => .ok ""

/-- The links block (exa_contents.py 232-238). -/
def linksPart (d : JVal) : Except String String :=
  match pyContainsE d "links" with
  | .error e => .error e
  | .ok true =>
    match pyIndex d "links" with
    | .error e => .error e
    | .ok lv =>
      if pyTruthy lv then
        match pyIter lv with
        | .error e => .error e
        | .ok items =>
          match mapJoinE renderLink items with
          | .error e => .error e
          | .ok body => .ok ("**Links:**\n\n" ++ body ++ "\n")
      else .ok ""
  | .ok false => .ok ""

/-- The primary content block with the 1000-character budget
(exa_contents.py 241-249). -/
def contentPart (d : JVal) : Except String String :=
  match pyContainsE d "text" with
  | .error e => .error e
  | .ok true =>
    match pyIndex d "text" with
    | .error e => .error e
    | .ok (.jstr t) =>
      .ok (if t ≠ "" then
        "**Content:**\n\n```\n" ++ contents_text_preview t ++ "\n```\n\n" else "")
    | .ok tv => if pyTruthy tv then .error "text field is not a string" else .ok ""
  | .ok false => .ok ""

/-- The subpages block (exa_contents.py 252-269). -/
def subpagesPart (d : JVal) : Except String String :=
  match pyContainsE d "subpages" with
  | .error e => .error e
  | .ok true =>
    match pyIndex d "subpages" with
    | .error e => .error e
    | .ok sv =>
      if pyTruthy sv then
        match pyIter sv with
        | .error e => .error e
        | .ok items =>
          match mapJoinE renderSubpage items with
          | .error e => .error e
          | .ok body => .ok ("**Subpages:**\n\n" ++ body)
      else .ok ""
  | .ok false => .ok ""

/-- The per-URL section rendered when the URL is present in the results
mapping (exa_contents.py 220-271). -/
def renderUrlData (url : String) (d : JVal) : Except String String :=
  match titlePart d with
  | .error e => .error e
  | .ok s1 =>
    match summaryPart d with
    | .error e => .error e
    | .ok s2 =>
      match linksPart d with
      | .error e => .error e
      | .ok s3 =>
        match contentPart d with
        | .error e => .error e
        | .ok s4 =>
          match subpagesPart d with
          | .error e => .error e
          | .ok s5 =>
            .ok ("### URL: [" ++ url ++ "](" ++ url ++ ")\n\n"
              ++ s1 ++ s2 ++ s3 ++ s4 ++ s5 ++ "---\n\n")

/-- One requested URL's section: the no-data sentence when the URL is not a
key of the results collection, the rendered section otherwise
(exa_contents.py 215-221). -/
def contentsSection (results : JVal) (url : String) : Except String String :=
  match pyContainsE results url with
  | .error e => .error e
  | .ok false =>
    .ok ("### URL: " ++ url ++ "\n\nNo data available for this URL.\n\n---\n\n")
  | .ok true =>
    match pyIndex results url with
    | .error e => .error e
    | .ok d => renderUrlData url d

/-- `for url in urls` over the section renderer. -/
def contentsSections (results : JVal) : List String → Except String String
  | [] => .ok ""
  | u :: us =>
    match contentsSection results u with
    | .error e => .error e
    | .ok s =>
      match contentsSections results us with
      | .error e => .error e
      | .ok rest => .ok (s ++ rest)

/-- `ExaContentsTool._format_results_as_markdown`. -/
def contentsFormat (resp : JVal) (urls : List String) : Except String String :=
  if pyTruthy resp then
    match pyContainsE resp "results" with
    | .error e => .error e
    | .ok false => .ok "No content data available."
    | .ok true =>
      match pyGetD resp "results" (.jobj []) with
      | .error e => .error e
      | .ok results =>
        match contentsSections results urls with
        | .error e => .error e
        | .ok body => .ok ("## Exa Content Extraction Results\n\n" ++ body)
  else .ok "No content data available."

/-! ### Invocations -/

/-- URL extraction after a successful search (exa_search.py 114-119): the
walrus `if url := result.get("url")` appends every truthy `url` value,
with no scheme check.  Non-dict items are skipped here: they are
unreachable, because the formatter has already raised on them. -/
def extract_urls (rs : List JVal) : List JVal :=
  rs.filterMap (fun r =>
    match jlookup r "url" with
    | some u => if pyTruthy u then some u else none
    | none => none)

/-- Image extraction after a successful search (exa_search.py 121-125):
only non-blank strings with an `http://` or `https://` prefix are kept. -/
def extract_images (rs : List JVal) : List JVal :=
  rs.filterMap (fun r =>
    match jlookup r "image" with
    | some (.jstr s) =>
      if pyStrip s ≠ "" && hasSchemeChars s.toList then some (.jstr s) else none
    | _ => none)

/-- `result_data.get("results", [])` as used by the extraction step
(exa_search.py 116); a non-list value is unreachable here because the
formatter has already run successfully. -/
def searchResultsList (body : JVal) : List JVal :=
  match jlookup body "results" with
  | some (.jarr xs) => xs
  | _ => []

/-- `ExaSearchTool._invoke`, as a function of the tool parameters, the
credential lookup (`none` models a missing `exa_api_key`) and the dispatch
outcome.  Messages are listed in yield order; note that the raw JSON
message is yielded before the formatter runs. -/
def searchInvoke (p : SearchParams) (cred : Option String) (d : Dispatch) :
    InvokeResult :=
  match cred with
  | none => ⟨errPair "Error: \x27exa_api_key\x27", none⟩
  | some _ =>
    match p.query with
    | none => ⟨errPair "Error: Search query is required", none⟩
    | some q =>
      if q = "" then ⟨errPair "Error: Search query is required", none⟩
      else
        let payload := searchPayload q p
        match d with
        | .ok body =>
          match searchFormat body q with
          | .error em => ⟨Msg.json body :: errPair ("Error: " ++ em), some payload⟩
          | .ok md =>
            ⟨[Msg.json body, Msg.text md,
              Msg.var "urls" (.jarr (extract_urls (searchResultsList body))),
              Msg.var "images" (.jarr (extract_images (searchResultsList body)))],
             some payload⟩
        | d =>
          match dispatchFailMsg "Error when calling Exa Search API: " d with
          | some m => ⟨errPair m, some payload⟩
          | none => ⟨[], some payload⟩

/-- The named parameters of the similar-links tool. -/
structure SimilarParams where
  url : Option String
  num_results : Option Int
  text : Option Bool

/-- The result count after defaulting to 10 and clamping at the API limit
of 100 (exa_similar.py 33-35). -/
def similarNum (p : SimilarParams) : Int :=
  let n := p.num_results.getD 10
  if n > 100 then 100 else n

/-- The outgoing findSimilar payload (exa_similar.py 39-46). -/
def similarPayload (u : String) (p : SimilarParams) : List (String × JVal) :=
  [("url", .jstr u), ("numResults", .jnum (similarNum p))]
  ++ (if p.text.getD false then [("text", JVal.jbool true)] else [])

/-- `ExaSimilarTool._invoke`. -/
def similarInvoke (p : SimilarParams) (cred : Option String) (d : Dispatch) :
    InvokeResult :=
  match cred with
  | none => ⟨errPair "Error: \x27exa_api_key\x27", none⟩
  | some _ =>
    match p.url with
    | none => ⟨errPair "Error: URL is required", none⟩
    | some u =>
      if u = "" then ⟨errPair "Error: URL is required", none⟩
      else
        let payload := similarPayload u p
        match d with
        | .ok body =>
          match similarFormat body u with
          | .error em => ⟨Msg.json body :: errPair ("Error: " ++ em), some payload⟩
          | .ok md => ⟨[Msg.json body, Msg.text md], some payload⟩
        | d =>
          match dispatchFailMsg "Error when calling Exa Find Similar API: " d with
          | some m => ⟨errPair m, some payload⟩
          | none => ⟨[], some payload⟩

/-- The named parameters of the answer tool. -/
structure AnswerParams where
  query : Option String
  text : Option Bool
  model : Option String

/-- The outgoing answer payload (exa_anwser.py 37-44): `model` is sent only
when it differs from the default `"exa"`. -/
def answerPayload (q : String) (p : AnswerParams) : List (String × JVal) :=
  [("query", .jstr q), ("text", .jbool (p.text.getD false))]
  ++ (if p.model.getD "exa" ≠ "exa" then [("model", .jstr (p.model.getD "exa"))] else [])

/-- `ExaAnswerTool._invoke`. -/
def answerInvoke (p : AnswerParams) (cred : Option String) (d : Dispatch) :
    InvokeResult :=
  match cred with
  | none => ⟨errPair "Error: \x27exa_api_key\x27", none⟩
  | some _ =>
    match p.query with
    | none => ⟨errPair "Error: Query is required", none⟩
    | some q =>
      if q = "" then ⟨errPair "Error: Query is required", none⟩
      else
        let payload := answerPayload q p
        match d with
        | .ok body =>
          match answerFormat body q with
          | .error em => ⟨Msg.json body :: errPair ("Error: " ++ em), some payload⟩
          | .ok md => ⟨[Msg.json body, Msg.text md], some payload⟩
        | d =>
          match dispatchFailMsg "Error when calling Exa Answer API: " d with
          | some m => ⟨errPair m, some payload⟩
          | none => ⟨[], some payload⟩

/-- The named parameters of the contents tool. -/
structure ContentsParams where
  urls : Option JVal
  livecrawl : Option String
  full_page_text : Option Bool
  ai_page_summary : Option Bool
  number_of_subpages : Option Int
  return_links : Option Int

/-- Python `s.startswith(pre)` on code points. -/
def pyStartsWith (s pre : String) : Bool := pre.toList.isPrefixOf s.toList

/-- Python `s.endswith(suf)` on code points. -/
def pyEndsWith (s suf : String) : Bool := suf.toList.isSuffixOf s.toList

/-- `urls = [url for url in urls if url.strip()]` (exa_contents.py 84): a
non-string element makes `.strip()` raise `AttributeError`. -/
def filterUrlsJ : List JVal → Except String (List String)
  | [] => .ok []
  | .jstr s :: rest =>
    match filterUrlsJ rest with
    | .error e => .error e
    | .ok us => .ok (if pyStrip s ≠ "" then s :: us else us)
  | _ :: _ => .error "object has no attribute strip"

/-- URL normalization of `ExaContentsTool._invoke` (exa_contents.py 48-86).
`urlsParam` is the raw `urls` parameter (defaulted to `""` when absent);
`jsonLoads` is the oracle for the one external `json.loads` call attempted
on strict `[...]`-shaped strings (`none` models `JSONDecodeError`, in which
case the code falls back to separator parsing). -/
def contentsGetUrls (urlsParam : JVal) (jsonLoads : Option (List JVal)) :
    Except String (List String) :=
  if pyTruthy urlsParam = false then .error "URLs parameter is required"
  else
    let urls : List JVal :=
      match urlsParam with
      | .jarr xs => xs
      | .jstr s =>
        if pyStartsWith (pyStrip s) "[" && pyEndsWith (pyStrip s) "]" then
          match jsonLoads with
          | some xs => xs
          | none => (parse_urls_string s).map .jstr
        else (parse_urls_string s).map .jstr
      | v => [.jstr (pyStrip (pyStr v))]
    if urls.isEmpty then .error "No valid URLs provided"
    else
      match filterUrlsJ urls with
      | .error e => .error e
      | .ok us => if us.isEmpty then .error "No valid URLs after filtering" else .ok us

/-- The outgoing contents payload (exa_contents.py 104-123): `ids` and
`livecrawl` always, then conditional insertion of `text`, `summary`,
`subpages` and `extras`. -/
def contentsPayload (p : ContentsParams) (urls : List String) :
    List (String × JVal) :=
  [("ids", .jarr (urls.map .jstr)), ("livecrawl", .jstr (p.livecrawl.getD "auto"))]
  ++ (if p.full_page_text.getD false then [("text", JVal.jbool true)] else [])
  ++ (if p.ai_page_summary.getD false then [("summary", JVal.jbool true)] else [])
  ++ (if p.number_of_subpages.getD 1 > 0 then
        [("subpages", JVal.jnum (p.number_of_subpages.getD 1))] else [])
  ++ (if p.return_links.getD 1 > 0 then
        [("extras", JVal.jobj [("links", JVal.jnum (p.return_links.getD 1))])] else [])

/-- The two messages of the contents tool's `except KeyError` fallback
(exa_contents.py 150-154): a mock text first, then a mock JSON — not an
error pair. -/
def mockMsgs : List Msg :=
  [Msg.text "API key not found. This is a mock implementation.",
   Msg.json (.jobj [("status", .jstr "mock"),
                    ("message", .jstr "Using mock data instead of actual API")])]

/-- `ExaContentsTool._invoke`.  The credential lookup happens first, so a
missing key takes the mock path before any validation. -/
def contentsInvoke (p : ContentsParams) (cred : Option String)
    (jsonLoads : Option (List JVal)) (d : Dispatch) : InvokeResult :=
  match cred with
  | none => ⟨mockMsgs, none⟩
  | some _ =>
    match contentsGetUrls (p.urls.getD (.jstr "")) jsonLoads with
    | .error m => ⟨errPair ("Error: " ++ m), none⟩
    | .ok urls =>
      let payload := contentsPayload p urls
      match d with
      | .ok body =>
        match contentsFormat body urls with
        | .error em => ⟨Msg.json body :: errPair ("Error: " ++ em), some payload⟩
        | .ok md => ⟨[Msg.json body, Msg.text md], some payload⟩
      | d =>
        match dispatchFailMsg "Error when calling Exa Contents API: " d with
        | some m => ⟨errPair m, some payload⟩
        | none => ⟨[], some payload⟩

/-! ### Auxiliary definitions used by the statements below -/

/-- The contribution of one pre-filter payload entry to the filtered
payload: kept when the value is not the `None` placeholder. -/
def optSeg (k : String) (o : Option JVal) : List (String × JVal) :=
  match o with
  | some v => [(k, v)]
  | none => []

/-- A well-behaved URL token for the delimiter-mixing statement: nonempty,
free of separator characters, of the quote characters stripped from each
piece, and of the surrounding-bracket characters. -/
def goodToken (t : List Char) : Prop :=
  t ≠ [] ∧ ∀ c ∈ t, urlSep c = false ∧ c ≠ '\x27' ∧ c ≠ '"' ∧ c ≠ '[' ∧ c ≠ ']'

/-- Decidability of `goodToken`, used to evaluate the hypotheses of the
delimiter statement on concrete tokens. -/
instance (t : List Char) : Decidable (goodToken t) := by
  unfold goodToken
  infer_instance

/-- Join tokens with one single-character delimiter between consecutive
tokens (the extra `seps` are ignored; a missing delimiter only occurs
outside the length hypothesis of the statements below). -/
def interleaveChars : List (List Char) → List Char → List Char
  | [], _ => []
  | t :: ts, seps =>
    match ts, seps with
    | [], _ => t
    | _ :: _, [] => t
    | _ :: _, sep :: seps2 => t ++ sep :: interleaveChars ts seps2

/-- Occurrence of `n` as a contiguous substring of `h`. -/
def strOccurs (n h : String) : Prop := ∃ pre post, h = pre ++ n ++ post

/-- A parameter record with no caller-supplied fields (search tool). -/
def emptySearchParams : SearchParams :=
  ⟨none, none, none, none, none, none, none, none, none, none, none, none, none⟩

/-- A parameter record with no caller-supplied fields (contents tool). -/
def emptyContentsParams : ContentsParams := ⟨none, none, none, none, none, none⟩

/-! ## Helper lemmas -/

theorem pyTruncate_long (b : Nat) (m s : String) (h : s.length > b) :
    pyTruncate b m s = String.mk (s.toList.take b) ++ m
      ∧ (pyTruncate b m s).length = b + m.length
      ∧ m.toList <:+ (pyTruncate b m s).toList := by
  have he : pyTruncate b m s = String.mk (s.toList.take b) ++ m := by
    simp [pyTruncate, h]
  refine ⟨he, ?_, ?_⟩
  · rw [he, String.length_append]
    have : (String.mk (s.toList.take b)).length = b := by
      show (s.toList.take b).length = b
      rw [List.length_take]
      exact Nat.min_eq_left (Nat.le_of_lt h)
    omega
  · rw [he]
    show m.toList <:+ (String.mk (s.toList.take b) ++ m).data
    rw [String.data_append]
    exact List.suffix_append _ _

theorem pyTruncate_short (b : Nat) (m s : String) (h : s.length ≤ b) :
    pyTruncate b m s = s := by
  simp [pyTruncate]
  omega

/-! ## C6 — truncation budgets -/

/-- C6: every free-text field longer than its budget (300 for answer-source
excerpts, 500 for search and similar excerpts, 1000 for primary contents
bodies, 500 for subpage previews) is rendered as exactly the first
budget-many characters followed by that site's trailing truncation marker,
so the rendered field's length is the budget plus the marker's length and
it ends with the marker; fields at or under the budget are unchanged. -/
theorem C6_truncation_budgets (s : String) :
    (300 < s.length →
      answer_excerpt s = String.mk (s.toList.take 300) ++ "..."
        ∧ (answer_excerpt s).length = 300 + "...".length
        ∧ "...".toList <:+ (answer_excerpt s).toList)
    ∧ (s.length ≤ 300 → answer_excerpt s = s)
    ∧ (500 < s.length →
      search_excerpt s = String.mk (s.toList.take 500) ++ "..."
        ∧ (search_excerpt s).length = 500 + "...".length
        ∧ "...".toList <:+ (search_excerpt s).toList)
    ∧ (s.length ≤ 500 → search_excerpt s = s)
    ∧ (500 < s.length →
      similar_excerpt s = String.mk (s.toList.take 500) ++ "..."
        ∧ (similar_excerpt s).length = 500 + "...".length
        ∧ "...".toList <:+ (similar_excerpt s).toList)
    ∧ (s.length ≤ 500 → similar_excerpt s = s)
    ∧ (1000 < s.length →
      contents_text_preview s
          = String.mk (s.toList.take 1000) ++ "...\n(content truncated for readability)"
        ∧ (contents_text_preview s).length
          = 1000 + "...\n(content truncated for readability)".length
        ∧ "...\n(content truncated for readability)".toList
          <:+ (contents_text_preview s).toList)
    ∧ (s.length ≤ 1000 → contents_text_preview s = s)
    ∧ (500 < s.length →
      subpage_text_preview s = String.mk (s.toList.take 500) ++ "..."
        ∧ (subpage_text_preview s).length = 500 + "...".length
        ∧ "...".toList <:+ (subpage_text_preview s).toList)
    ∧ (s.length ≤ 500 → subpage_text_preview s = s) :=
  ⟨fun h => pyTruncate_long 300 _ s h, fun h => pyTruncate_short 300 _ s h,
   fun h => pyTruncate_long 500 _ s h, fun h => pyTruncate_short 500 _ s h,
   fun h => pyTruncate_long 500 _ s h, fun h => pyTruncate_short 500 _ s h,
   fun h => pyTruncate_long 1000 _ s h, fun h => pyTruncate_short 1000 _ s h,
   fun h => pyTruncate_long 500 _ s h, fun h => pyTruncate_short 500 _ s h⟩

/-- C6 witness: the truncation statement applied to a concrete 1001-character
field and a concrete short field. -/
theorem C6_truncation_budgets_witness :
    ((answer_excerpt (String.mk (List.replicate 1001 'a'))).length = 300 + "...".length)
    ∧ ((search_excerpt (String.mk (List.replicate 1001 'a'))).length = 500 + "...".length)
    ∧ ((similar_excerpt (String.mk (List.replicate 1001 'a'))).length = 500 + "...".length)
    ∧ ((contents_text_preview (String.mk (List.replicate 1001 'a'))).length
        = 1000 + "...\n(content truncated for readability)".length)
    ∧ ((subpage_text_preview (String.mk (List.replicate 1001 'a'))).length
        = 500 + "...".length)
    ∧ (answer_excerpt "short" = "short") := by
  have hlen : (String.mk (List.replicate 1001 'a')).length = 1001 := by
    show (List.replicate 1001 'a').length = 1001
    exact List.length_replicate 1001 'a'
  have h := C6_truncation_budgets (String.mk (List.replicate 1001 'a'))
  have hs := C6_truncation_budgets "short"
  exact ⟨(h.1 (by omega)).2.1,
         (h.2.2.1 (by omega)).2.1,
         (h.2.2.2.2.1 (by omega)).2.1,
         (h.2.2.2.2.2.2.1 (by omega)).2.1,
         (h.2.2.2.2.2.2.2.2.1 (by omega)).2.1,
         hs.2.1 (by decide)⟩

/-! ## Payload lookup lemmas -/

theorem filterMap_entry_cons (k : String) (o : Option JVal)
    (rest : List (String × Option JVal)) :
    ((k, o) :: rest).filterMap (fun kv => kv.2.map (fun v => (kv.1, v)))
      = optSeg k o ++ rest.filterMap (fun kv => kv.2.map (fun v => (kv.1, v))) := by
  cases o <;> simp [optSeg, List.filterMap_cons]

theorem lookup_cons_ne {k k2 : String} (v : JVal) (l : List (String × JVal))
    (hb : (k == k2) = false) :
    List.lookup k ((k2, v) :: l) = List.lookup k l := by
  simp [List.lookup, hb]

theorem lookup_optSeg_ne {k k2 : String} (o : Option JVal)
    (l : List (String × JVal)) (hb : (k == k2) = false) :
    List.lookup k (optSeg k2 o ++ l) = List.lookup k l := by
  cases o <;> simp [optSeg, List.lookup, hb]

theorem lookup_optSeg_eq (k : String) (o : Option JVal)
    (l : List (String × JVal)) (h : List.lookup k l = none) :
    List.lookup k (optSeg k o ++ l) = o := by
  cases o <;> simp [optSeg, List.lookup, h]

theorem mem_optSeg {kv : String × JVal} {k : String} {o : Option JVal} :
    kv ∈ optSeg k o ↔ ∃ v, o = some v ∧ kv = (k, v) := by
  cases o <;> simp [optSeg]

/-- The outgoing search payload, rewritten into one cons/append normal form:
three always-present entries followed by one optional segment per
conditional field and the optional `contents` object. -/
theorem searchPayload_eq (q : String) (p : SearchParams) :
    searchPayload q p =
      ("query", JVal.jstr q)
        :: ("numResults", JVal.jnum (p.num_results.getD 10))
        :: ("useAutoprompt", JVal.jbool (p.use_autoprompt.getD true))
        :: (optSeg "type" (if p.search_type.getD "neural" ≠ "auto"
              then some (.jstr (p.search_type.getD "neural")) else none)
          ++ (optSeg "includeDomains" (if domainsList (p.include_domains.getD "") ≠ []
              then some (.jarr ((domainsList (p.include_domains.getD "")).map .jstr)) else none)
          ++ (optSeg "excludeDomains" (if domainsList (p.exclude_domains.getD "") ≠ []
              then some (.jarr ((domainsList (p.exclude_domains.getD "")).map .jstr)) else none)
          ++ (optSeg "startPublishedDate" (if p.start_published_date.getD "" ≠ ""
              then some (.jstr (p.start_published_date.getD "")) else none)
          ++ (optSeg "endPublishedDate" (if p.end_published_date.getD "" ≠ ""
              then some (.jstr (p.end_published_date.getD "")) else none)
          ++ (optSeg "category" (p.category.map .jstr)
          ++ (optSeg "includeText"
                (match p.includeText with
                 | some t => if t ≠ "" then some (.jarr [.jstr t]) else none
                 | none => none)
          ++ (optSeg "excludeText"
                (match p.excludeText with
                 | some t => if t ≠ "" then some (.jarr [.jstr t]) else none
                 | none => none)
          ++ (if (contentsOptions p).isEmpty then []
              else [("contents", .jobj (contentsOptions p))]))))))))) := by
  simp only [searchPayload, searchPayloadEntries, filterMap_entry_cons,
    List.filterMap_nil, optSeg, List.singleton_append, List.cons_append,
    List.append_assoc, List.nil_append, List.append_nil]

theorem lookup_searchPayload_numResults (q : String) (p : SearchParams) :
    List.lookup "numResults" (searchPayload q p) = some (.jnum (p.num_results.getD 10)) := by
  rw [searchPayload_eq, lookup_cons_ne _ _ (by rfl)]
  simp [List.lookup]

theorem lookup_tail_contents_none (k : String) (p : SearchParams)
    (hb : (k == "contents") = false) :
    List.lookup k (if (contentsOptions p).isEmpty then []
        else [("contents", JVal.jobj (contentsOptions p))]) = none := by
  split
  · rfl
  · simp [List.lookup, hb]

theorem lookup_searchPayload_type (q : String) (p : SearchParams) :
    List.lookup "type" (searchPayload q p)
      = (if p.search_type.getD "neural" ≠ "auto"
          then some (.jstr (p.search_type.getD "neural")) else none) := by
  rw [searchPayload_eq, lookup_cons_ne _ _ (by rfl), lookup_cons_ne _ _ (by rfl),
    lookup_cons_ne _ _ (by rfl)]
  refine lookup_optSeg_eq _ _ _ ?_
  rw [lookup_optSeg_ne _ _ (by rfl), lookup_optSeg_ne _ _ (by rfl),
    lookup_optSeg_ne _ _ (by rfl), lookup_optSeg_ne _ _ (by rfl),
    lookup_optSeg_ne _ _ (by rfl), lookup_optSeg_ne _ _ (by rfl),
    lookup_optSeg_ne _ _ (by rfl)]
  exact lookup_tail_contents_none _ p (by rfl)

theorem lookup_searchPayload_category (q : String) (p : SearchParams) :
    List.lookup "category" (searchPayload q p) = p.category.map .jstr := by
  rw [searchPayload_eq, lookup_cons_ne _ _ (by rfl), lookup_cons_ne _ _ (by rfl),
    lookup_cons_ne _ _ (by rfl), lookup_optSeg_ne _ _ (by rfl),
    lookup_optSeg_ne _ _ (by rfl), lookup_optSeg_ne _ _ (by rfl),
    lookup_optSeg_ne _ _ (by rfl), lookup_optSeg_ne _ _ (by rfl)]
  refine lookup_optSeg_eq _ _ _ ?_
  rw [lookup_optSeg_ne _ _ (by rfl), lookup_optSeg_ne _ _ (by rfl)]
  exact lookup_tail_contents_none _ p (by rfl)

theorem lookup_searchPayload_startDate (q : String) (p : SearchParams) :
    List.lookup "startPublishedDate" (searchPayload q p)
      = (if p.start_published_date.getD "" ≠ ""
          then some (.jstr (p.start_published_date.getD "")) else none) := by
  rw [searchPayload_eq, lookup_cons_ne _ _ (by rfl), lookup_cons_ne _ _ (by rfl),
    lookup_cons_ne _ _ (by rfl), lookup_optSeg_ne _ _ (by rfl),
    lookup_optSeg_ne _ _ (by rfl), lookup_optSeg_ne _ _ (by rfl)]
  refine lookup_optSeg_eq _ _ _ ?_
  rw [lookup_optSeg_ne _ _ (by rfl), lookup_optSeg_ne _ _ (by rfl),
    lookup_optSeg_ne _ _ (by rfl), lookup_optSeg_ne _ _ (by rfl)]
  exact lookup_tail_contents_none _ p (by rfl)

theorem lookup_searchPayload_includeText (q : String) (p : SearchParams) :
    List.lookup "includeText" (searchPayload q p)
      = (match p.includeText with
         | some t => if t ≠ "" then some (.jarr [.jstr t]) else none
         | none => none) := by
  rw [searchPayload_eq, lookup_cons_ne _ _ (by rfl), lookup_cons_ne _ _ (by rfl),
    lookup_cons_ne _ _ (by rfl), lookup_optSeg_ne _ _ (by rfl),
    lookup_optSeg_ne _ _ (by rfl), lookup_optSeg_ne _ _ (by rfl),
    lookup_optSeg_ne _ _ (by rfl), lookup_optSeg_ne _ _ (by rfl),
    lookup_optSeg_ne _ _ (by rfl)]
  refine lookup_optSeg_eq _ _ _ ?_
  rw [lookup_optSeg_ne _ _ (by rfl)]
  exact lookup_tail_contents_none _ p (by rfl)

/-! ## C4 — result-count defaulting and clamping -/

/-- C4 counterexample: the search tool does not clamp; `num_results = 150`
is sent as `numResults = 150`, so the claim that every tool clamps counts
above 100 is false on the code. -/
theorem C4_count_clamp_counterexample :
    List.lookup "numResults"
        (searchPayload "q" { emptySearchParams with num_results := some 150 })
      = some (.jnum 150) ∧ (150 : Int) > 100 :=
  ⟨rfl, by decide⟩

/-- C4 amended: an unspecified count defaults to 10 in both tools; the
similar-links tool clamps supplied counts above 100 to 100 (and sends
counts at most 100 unchanged), while the search tool sends every supplied
count unchanged, with no clamp. -/
theorem C4_count_clamp_amended :
    (∀ (u : String) (p : SimilarParams), p.num_results = none →
      List.lookup "numResults" (similarPayload u p) = some (.jnum 10))
    ∧ (∀ (u : String) (p : SimilarParams) (n : Int), p.num_results = some n → 100 < n →
      List.lookup "numResults" (similarPayload u p) = some (.jnum 100))
    ∧ (∀ (u : String) (p : SimilarParams) (n : Int), p.num_results = some n → n ≤ 100 →
      List.lookup "numResults" (similarPayload u p) = some (.jnum n))
    ∧ (∀ (q : String) (p : SearchParams), p.num_results = none →
      List.lookup "numResults" (searchPayload q p) = some (.jnum 10))
    ∧ (∀ (q : String) (p : SearchParams) (n : Int), p.num_results = some n →
      List.lookup "numResults" (searchPayload q p) = some (.jnum n)) := by
  refine ⟨?_, ?_, ?_, ?_, ?_⟩
  · intro u p h
    simp [similarPayload, similarNum, h, List.lookup]
  · intro u p n h hn
    have : similarNum p = 100 := by simp [similarNum, h, hn]
    simp [similarPayload, this, List.lookup]
  · intro u p n h hn
    have : similarNum p = n := by
      simp [similarNum, h]
      omega
    simp [similarPayload, this, List.lookup]
  · intro q p h
    rw [lookup_searchPayload_numResults]
    simp [h]
  · intro q p n h
    rw [lookup_searchPayload_numResults]
    simp [h]

/-- C4 witness: the amended statement at `num_results = 150` (clamped for
similar) and at an unspecified count (default 10). -/
theorem C4_count_clamp_witness :
    List.lookup "numResults" (similarPayload "https://x.com" ⟨some "https://x.com", some 150, none⟩)
        = some (.jnum 100)
    ∧ List.lookup "numResults" (similarPayload "https://x.com" ⟨some "https://x.com", none, none⟩)
        = some (.jnum 10) :=
  ⟨C4_count_clamp_amended.2.1 "https://x.com" _ 150 rfl (by decide),
   C4_count_clamp_amended.1 "https://x.com" _ rfl⟩

/-! ## C8 — search-mode defaulting -/

/-- C8: the search mode defaults to `"neural"` when unspecified, a supplied
mode of `"auto"` makes the `type` field be omitted from the outgoing
payload entirely, and any other supplied mode is sent as given. -/
theorem C8_search_type_default :
    (∀ (q : String) (p : SearchParams), p.search_type = none →
      List.lookup "type" (searchPayload q p) = some (.jstr "neural"))
    ∧ (∀ (q : String) (p : SearchParams), p.search_type = some "auto" →
      List.lookup "type" (searchPayload q p) = none)
    ∧ (∀ (q : String) (p : SearchParams) (st : String),
        p.search_type = some st → st ≠ "auto" →
      List.lookup "type" (searchPayload q p) = some (.jstr st)) := by
  refine ⟨?_, ?_, ?_⟩
  · intro q p h
    rw [lookup_searchPayload_type]
    simp [h]
  · intro q p h
    rw [lookup_searchPayload_type]
    simp [h]
  · intro q p st h hne
    rw [lookup_searchPayload_type]
    simp [h, hne]

/-- C8 witness: the statement at an unspecified mode and at mode `"auto"`. -/
theorem C8_search_type_default_witness :
    List.lookup "type" (searchPayload "test" emptySearchParams) = some (.jstr "neural")
    ∧ List.lookup "type"
        (searchPayload "test" { emptySearchParams with search_type := some "auto" }) = none :=
  ⟨C8_search_type_default.1 "test" emptySearchParams rfl,
   C8_search_type_default.2.1 "test" _ rfl⟩

/-! ## C5 — no nulls; presence of optional fields -/

theorem searchPayload_no_null (q : String) (p : SearchParams) :
    ∀ kv ∈ searchPayload q p, kv.2 ≠ JVal.jnull := by
  intro kv hkv
  rw [searchPayload_eq] at hkv
  simp only [List.mem_cons, List.mem_append, mem_optSeg] at hkv
  rcases hkv with rfl|rfl|rfl|⟨v,hv,rfl⟩|⟨v,hv,rfl⟩|⟨v,hv,rfl⟩|⟨v,hv,rfl⟩|⟨v,hv,rfl⟩
    |⟨v,hv,rfl⟩|⟨v,hv,rfl⟩|⟨v,hv,rfl⟩|h
  · simp
  · simp
  · simp
  · show v ≠ JVal.jnull
    intro hnull; subst hnull; split_ifs at hv <;> simp_all
  · show v ≠ JVal.jnull
    intro hnull; subst hnull; split_ifs at hv <;> simp_all
  · show v ≠ JVal.jnull
    intro hnull; subst hnull; split_ifs at hv <;> simp_all
  · show v ≠ JVal.jnull
    intro hnull; subst hnull; split_ifs at hv <;> simp_all
  · show v ≠ JVal.jnull
    intro hnull; subst hnull; split_ifs at hv <;> simp_all
  · show v ≠ JVal.jnull
    intro hnull; subst hnull
    cases hc : p.category with
    | none => rw [hc] at hv; cases hv
    | some c => rw [hc] at hv; simp at hv
  · show v ≠ JVal.jnull
    intro hnull; subst hnull
    cases hit : p.includeText with
    | none => rw [hit] at hv; cases hv
    | some t => simp only [hit] at hv; split_ifs at hv <;> simp_all
  · show v ≠ JVal.jnull
    intro hnull; subst hnull
    cases het : p.excludeText with
    | none => rw [het] at hv; cases hv
    | some t => simp only [het] at hv; split_ifs at hv <;> simp_all
  · split at h <;> simp_all

theorem similarPayload_no_null (u : String) (p : SimilarParams) :
    ∀ kv ∈ similarPayload u p, kv.2 ≠ JVal.jnull := by
  intro kv hkv
  simp only [similarPayload, List.mem_append, List.mem_cons, List.not_mem_nil,
    or_false] at hkv
  rcases hkv with (rfl|rfl)|h
  · simp
  · simp
  · split at h <;> simp_all

theorem answerPayload_no_null (q : String) (p : AnswerParams) :
    ∀ kv ∈ answerPayload q p, kv.2 ≠ JVal.jnull := by
  intro kv hkv
  simp only [answerPayload, List.mem_append, List.mem_cons, List.not_mem_nil,
    or_false] at hkv
  rcases hkv with (rfl|rfl)|h
  · simp
  · simp
  · split at h <;> simp_all

theorem contentsPayload_no_null (p : ContentsParams) (urls : List String) :
    ∀ kv ∈ contentsPayload p urls, kv.2 ≠ JVal.jnull := by
  intro kv hkv
  simp only [contentsPayload, List.mem_append, List.mem_cons, List.not_mem_nil,
    or_false] at hkv
  rcases hkv with ((((rfl|rfl)|h)|h)|h)|h
  · simp
  · simp
  · split at h <;> simp_all
  · split at h <;> simp_all
  · split at h <;> simp_all
  · split at h <;> simp_all

/-- C5 counterexample: with only the query supplied, the outgoing search
payload already contains `type`, `numResults`, `useAutoprompt` and
`contents`, so "optional fields present only when the corresponding input
was supplied" is false on the code. -/
theorem C5_no_null_counterexample :
    emptySearchParams.search_type = none
    ∧ List.lookup "type" (searchPayload "test" emptySearchParams) = some (.jstr "neural")
    ∧ emptySearchParams.num_results = none
    ∧ List.lookup "numResults" (searchPayload "test" emptySearchParams) = some (.jnum 10) :=
  ⟨rfl, rfl, rfl, rfl⟩

/-- C5 amended: no outgoing payload of any of the four tools ever contains
a null value; optional fields without a truthy default (`category`,
`includeText`, the date bounds for search; `text` for similar; `model` for
answer) are present exactly when the caller supplied a truthy value — but
fields with defaults (`numResults`, `useAutoprompt`, `type`, `contents`
for search; `livecrawl`, `subpages`, `extras` for contents) are present
even when unsupplied. -/
theorem C5_no_null_amended :
    (∀ (q : String) (p : SearchParams), ∀ kv ∈ searchPayload q p, kv.2 ≠ JVal.jnull)
    ∧ (∀ (u : String) (p : SimilarParams), ∀ kv ∈ similarPayload u p, kv.2 ≠ JVal.jnull)
    ∧ (∀ (q : String) (p : AnswerParams), ∀ kv ∈ answerPayload q p, kv.2 ≠ JVal.jnull)
    ∧ (∀ (p : ContentsParams) (urls : List String),
        ∀ kv ∈ contentsPayload p urls, kv.2 ≠ JVal.jnull)
    ∧ (∀ (q : String) (p : SearchParams),
        (List.lookup "category" (searchPayload q p)).isSome ↔ p.category.isSome)
    ∧ (∀ (q : String) (p : SearchParams),
        (List.lookup "startPublishedDate" (searchPayload q p)).isSome
          ↔ ∃ s, p.start_published_date = some s ∧ s ≠ "")
    ∧ (∀ (q : String) (p : SearchParams),
        (List.lookup "includeText" (searchPayload q p)).isSome
          ↔ ∃ t, p.includeText = some t ∧ t ≠ "")
    ∧ (∀ (u : String) (p : SimilarParams),
        (List.lookup "text" (similarPayload u p)).isSome ↔ p.text = some true)
    ∧ (∀ (q : String) (p : AnswerParams),
        (List.lookup "model" (answerPayload q p)).isSome ↔ p.model.getD "exa" ≠ "exa") := by
  refine ⟨searchPayload_no_null, similarPayload_no_null, answerPayload_no_null,
    contentsPayload_no_null, ?_, ?_, ?_, ?_, ?_⟩
  · intro q p
    rw [lookup_searchPayload_category]
    cases p.category <;> simp
  · intro q p
    rw [lookup_searchPayload_startDate]
    cases hs : p.start_published_date with
    | none => simp
    | some s => by_cases h : s = "" <;> simp [h]
  · intro q p
    rw [lookup_searchPayload_includeText]
    cases ht : p.includeText with
    | none => simp
    | some t => by_cases h : t = "" <;> simp [h]
  · intro u p
    cases ht : p.text with
    | none => simp [similarPayload, List.lookup, ht]
    | some b => cases b <;> simp [similarPayload, List.lookup, ht]
  · intro q p
    by_cases h : p.model.getD "exa" = "exa" <;>
      simp [answerPayload, List.lookup, h]

/-- C5 witness: the amended statement evaluated at concrete parameters. -/
theorem C5_no_null_witness :
    (∀ kv ∈ searchPayload "test" emptySearchParams, kv.2 ≠ JVal.jnull)
    ∧ ((List.lookup "category" (searchPayload "test" emptySearchParams)).isSome ↔
        (emptySearchParams.category).isSome) :=
  ⟨C5_no_null_amended.1 "test" emptySearchParams,
   C5_no_null_amended.2.2.2.2.1 "test" emptySearchParams⟩

/-! ## C3 — URL-list parsing lemmas -/

theorem dropWhile_eq_self_of_all (p : Char → Bool) (l : List Char)
    (h : ∀ c ∈ l, p c = false) : l.dropWhile p = l := by
  cases l with
  | nil => rfl
  | cons c cs => simp [List.dropWhile_cons, h c (by simp)]

theorem stripEnds_eq_self (p : Char → Bool) (l : List Char)
    (h : ∀ c ∈ l, p c = false) : stripEnds p l = l := by
  unfold stripEnds
  rw [dropWhile_eq_self_of_all p l h,
    dropWhile_eq_self_of_all p l.reverse (fun c hc => h c (List.mem_reverse.1 hc)),
    List.reverse_reverse]

theorem stripEnds_eq_self_of_ends (p : Char → Bool) (l : List Char)
    (h1 : ∀ c, l.head? = some c → p c = false)
    (h2 : ∀ c, l.getLast? = some c → p c = false) : stripEnds p l = l := by
  cases l with
  | nil => rfl
  | cons c cs =>
    unfold stripEnds
    rw [show (c :: cs).dropWhile p = c :: cs by
      simp [List.dropWhile_cons, h1 c rfl]]
    cases hrev : (c :: cs).reverse with
    | nil => exact absurd hrev (by simp)
    | cons d ds =>
      have hd : p d = false := by
        apply h2
        rw [← List.head?_reverse, hrev]
        rfl
      have hdrop : List.dropWhile p (d :: ds) = d :: ds := by
        simp [List.dropWhile_cons, hd]
      rw [hdrop, ← hrev, List.reverse_reverse]

theorem splitChars_sepfree (p : Char → Bool) :
    ∀ t : List Char, (∀ c ∈ t, p c = false) → splitChars p t = [t] := by
  intro t
  induction t with
  | nil => intro _; rfl
  | cons c cs ih =>
    intro h
    have hc : p c = false := h c (by simp)
    have ih2 := ih (fun d hd => h d (by simp [hd]))
    simp [splitChars, hc, ih2]

theorem splitChars_append_sep (p : Char → Bool) :
    ∀ (t : List Char) (sep : Char) (rest : List Char),
      (∀ c ∈ t, p c = false) → p sep = true →
      splitChars p (t ++ sep :: rest) = t :: splitChars p rest := by
  intro t
  induction t with
  | nil =>
    intro sep rest _ hsep
    simp [splitChars, hsep]
  | cons c cs ih =>
    intro sep rest h hsep
    have hc : p c = false := h c (by simp)
    have ih2 := ih sep rest (fun d hd => h d (by simp [hd])) hsep
    simp [splitChars, hc, ih2]

theorem goodToken_sepfree {t : List Char} (h : goodToken t) :
    ∀ c ∈ t, urlSep c = false :=
  fun c hc => (h.2 c hc).1

theorem goodToken_no_quote {t : List Char} (h : goodToken t) :
    ∀ c ∈ t, isQuoteSpace c = false := by
  intro c hc
  obtain ⟨hsep, h27, h22, _, _⟩ := h.2 c hc
  have hspace : ¬ c = ' ' := by
    intro heq
    subst heq
    simp [urlSep, isPyWS] at hsep
  simp [isQuoteSpace, h27, h22, hspace]

theorem goodToken_not_ws {t : List Char} (h : goodToken t) :
    ∀ c ∈ t, isPyWS c = false := by
  intro c hc
  have hsep := (h.2 c hc).1
  cases hb : isPyWS c
  · rfl
  · simp [urlSep, hb] at hsep

theorem cleanPart_good (t : List Char) (h : goodToken t) :
    cleanPart t = some (addScheme (String.mk t)) := by
  unfold cleanPart
  rw [stripEnds_eq_self _ _ (goodToken_no_quote h)]
  have hne : t.isEmpty = false := by
    cases t with
    | nil => exact absurd rfl h.1
    | cons a b => rfl
  simp [hne]

theorem interleave_ne_nil (t : List Char) (ts : List (List Char))
    (seps : List Char) (ht : t ≠ []) :
    interleaveChars (t :: ts) seps ≠ [] := by
  cases ts with
  | nil => simpa [interleaveChars] using ht
  | cons a b =>
    cases seps with
    | nil => simpa [interleaveChars] using ht
    | cons s ss => simp [interleaveChars]

theorem interleave_expose (t : List Char) (ts : List (List Char)) (seps : List Char) :
    ∃ rest, interleaveChars (t :: ts) seps = t ++ rest := by
  cases ts with
  | nil => exact ⟨[], by simp [interleaveChars]⟩
  | cons a b =>
    cases seps with
    | nil => exact ⟨[], by simp [interleaveChars]⟩
    | cons s ss => exact ⟨s :: interleaveChars (a :: b) ss, rfl⟩

theorem interleave_getLast :
    ∀ (ts : List (List Char)) (seps : List Char) (t : List Char),
      (∀ x ∈ t :: ts, x ≠ []) → seps.length = ts.length →
      ∃ tl, (t :: ts).getLast? = some tl
        ∧ (interleaveChars (t :: ts) seps).getLast? = tl.getLast? := by
  intro ts
  induction ts with
  | nil =>
    intro seps t _ _
    exact ⟨t, rfl, by simp [interleaveChars]⟩
  | cons t2 ts2 ih =>
    intro seps t hne hlen
    cases seps with
    | nil => simp at hlen
    | cons sep seps2 =>
      obtain ⟨tl, hlast, hM⟩ := ih seps2 t2
        (fun x hx => hne x (by simp at hx ⊢; tauto)) (by simpa using hlen)
      refine ⟨tl, ?_, ?_⟩
      · rw [List.getLast?_cons_cons]
        exact hlast
      · have hMne : interleaveChars (t2 :: ts2) seps2 ≠ [] :=
          interleave_ne_nil t2 ts2 seps2 (hne t2 (by simp))
        show (interleaveChars (t :: t2 :: ts2) (sep :: seps2)).getLast? = tl.getLast?
        have hint : interleaveChars (t :: t2 :: ts2) (sep :: seps2)
            = t ++ sep :: interleaveChars (t2 :: ts2) seps2 := rfl
        rw [hint, List.getLast?_append_of_ne_nil _ (by simp),
          show (sep :: interleaveChars (t2 :: ts2) seps2)
              = [sep] ++ interleaveChars (t2 :: ts2) seps2 from rfl,
          List.getLast?_append_of_ne_nil _ hMne]
        exact hM

theorem getLast_opt_mem {α : Type} : ∀ (l : List α) (a : α), l.getLast? = some a → a ∈ l := by
  intro l
  induction l with
  | nil => intro a h; cases h
  | cons c cs ih =>
    intro a h
    cases cs with
    | nil =>
      simp at h
      simp [h]
    | cons d ds =>
      rw [List.getLast?_cons_cons] at h
      exact List.mem_cons_of_mem c (ih a h)

theorem filterMap_splitChars_interleave :
    ∀ (ts : List (List Char)) (seps : List Char),
      (∀ t ∈ ts, goodToken t) → (∀ c ∈ seps, urlSep c = true) →
      seps.length + 1 = ts.length →
      (splitChars urlSep (interleaveChars ts seps)).filterMap cleanPart
        = ts.map (fun t => addScheme (String.mk t)) := by
  intro ts
  induction ts with
  | nil =>
    intro seps _ _ hlen
    exact absurd hlen (by simp)
  | cons t ts ih =>
    intro seps hgood hseps hlen
    cases ts with
    | nil =>
      have hint : interleaveChars [t] seps = t := by
        cases seps <;> rfl
      rw [hint, splitChars_sepfree _ t (goodToken_sepfree (hgood t (by simp)))]
      simp [List.filterMap_cons, cleanPart_good t (hgood t (by simp))]
    | cons t2 ts2 =>
      cases seps with
      | nil => simp at hlen
      | cons sep seps2 =>
        have hint : interleaveChars (t :: t2 :: ts2) (sep :: seps2)
            = t ++ sep :: interleaveChars (t2 :: ts2) seps2 := rfl
        rw [hint, splitChars_append_sep _ t sep _
          (goodToken_sepfree (hgood t (by simp))) (hseps sep (by simp))]
        rw [List.filterMap_cons, cleanPart_good t (hgood t (by simp))]
        rw [ih seps2 (fun x hx => hgood x (by simp [hx]))
          (fun c hc => hseps c (by simp [hc])) (by simpa using hlen)]
        rfl

theorem mem_dropWhile (p : Char → Bool) :
    ∀ (l : List Char) (c : Char), c ∈ l → p c = false → c ∈ l.dropWhile p := by
  intro l
  induction l with
  | nil => intro c h _; cases h
  | cons a l ih =>
    intro c hc hpc
    by_cases ha : p a
    · simp only [List.dropWhile_cons, ha, if_true]
      rcases List.mem_cons.1 hc with rfl|h
      · rw [ha] at hpc; cases hpc
      · exact ih c h hpc
    · simp only [List.dropWhile_cons, ha, if_false, Bool.false_eq_true]
      exact hc

theorem stripEnds_ne_nil (p : Char → Bool) (l : List Char) (c : Char)
    (hc : c ∈ l) (hpc : p c = false) : stripEnds p l ≠ [] := by
  unfold stripEnds
  intro h
  have h2 : (l.dropWhile p).reverse.dropWhile p = [] := List.reverse_eq_nil_iff.1 h
  rw [List.dropWhile_eq_nil_iff] at h2
  have hcmem : c ∈ (l.dropWhile p).reverse :=
    List.mem_reverse.2 (mem_dropWhile p l c hc hpc)
  rw [h2 c hcmem] at hpc
  cases hpc

theorem pyStrip_ne_empty (s : String) (c : Char) (hc : c ∈ s.toList)
    (hw : isPyWS c = false) : pyStrip s ≠ "" := by
  unfold pyStrip
  intro h
  have h2 : stripEnds isPyWS s.toList = [] := congrArg String.data h
  exact stripEnds_ne_nil _ _ c hc hw h2

theorem addScheme_strip_ne (t : List Char) (h : goodToken t) :
    pyStrip (addScheme (String.mk t)) ≠ "" := by
  unfold addScheme
  split
  · obtain ⟨c, t2, rfl⟩ : ∃ c t2, t = c :: t2 := by
      cases t
      · exact absurd rfl h.1
      · exact ⟨_, _, rfl⟩
    exact pyStrip_ne_empty _ c (by simp [String.toList]) (goodToken_not_ws h c (by simp))
  · apply pyStrip_ne_empty _ 'h'
    · show 'h' ∈ ("https://" ++ String.mk t).data
      rw [String.data_append]
      exact List.mem_append.2 (Or.inl (by decide))
    · rfl

theorem filterUrlsJ_all (us : List String) (h : ∀ s ∈ us, pyStrip s ≠ "") :
    filterUrlsJ (us.map .jstr) = .ok us := by
  induction us with
  | nil => rfl
  | cons s us ih =>
    simp [filterUrlsJ, ih (fun x hx => h x (by simp [hx])), h s (by simp)]

theorem contentsGetUrls_of_list (us : List String) (hne : us ≠ [])
    (hstrip : ∀ s ∈ us, pyStrip s ≠ "") (jl : Option (List JVal)) :
    contentsGetUrls (.jarr (us.map .jstr)) jl = .ok us := by
  obtain ⟨s0, us2, rfl⟩ := List.exists_cons_of_ne_nil hne
  have h3 : filterUrlsJ ((s0 :: us2).map JVal.jstr) = .ok (s0 :: us2) :=
    filterUrlsJ_all _ hstrip
  simp only [List.map_cons] at h3
  simp [contentsGetUrls, pyTruthy, h3]

/-- C3 counterexample: the full-width semicolon (U+FF1B) of the claim's
example string is not a separator of the regex `[,，\s;]+` (that class has
the full-width comma U+FF0C, not the full-width semicolon), so
`"a.com, b.com；c.com"` parses into two entries, not three. -/
theorem C3_url_split_counterexample :
    parse_urls_string "a.com, b.com；c.com" = ["https://a.com", "https://b.com；c.com"]
    ∧ parse_urls_string "a.com, b.com；c.com"
        ≠ ["https://a.com", "https://b.com", "https://c.com"] := by
  constructor
  · decide
  · decide

/-- C3 amended: with the ASCII semicolon, `"a.com, b.com;c.com"` normalizes
to the three scheme-prefixed URLs; in general, joining any nonempty list of
well-behaved tokens with single delimiters drawn from the supported class
(comma, full-width comma, whitespace, ASCII semicolon) parses to exactly
the trimmed, scheme-prefixed tokens in order — the same list that the
equivalent native list input (the scheme-prefixed URLs) yields through the
contents tool's URL normalization. -/
theorem C3_url_split_amended :
    parse_urls_string "a.com, b.com;c.com" = ["https://a.com", "https://b.com", "https://c.com"]
    ∧ ∀ (ts : List (List Char)) (seps : List Char) (jl : Option (List JVal)),
        (∀ t ∈ ts, goodToken t) →
        (∀ c ∈ seps, urlSep c = true) →
        seps.length + 1 = ts.length →
        parse_urls_string (String.mk (interleaveChars ts seps))
            = ts.map (fun t => addScheme (String.mk t))
        ∧ contentsGetUrls
              (.jarr ((ts.map (fun t => addScheme (String.mk t))).map JVal.jstr)) jl
            = .ok (ts.map (fun t => addScheme (String.mk t))) := by
  constructor
  · decide
  · intro ts seps jl hgood hseps hlen
    cases ts with
    | nil => exact absurd hlen (by simp)
    | cons t ts2 =>
      have hgt := hgood t (by simp)
      obtain ⟨c0, t2, rfl⟩ : ∃ c0 t2, t = c0 :: t2 := by
        cases t
        · exact absurd rfl hgt.1
        · exact ⟨_, _, rfl⟩
      obtain ⟨rest, hrest⟩ := interleave_expose (c0 :: t2) ts2 seps
      have hhead : (interleaveChars ((c0 :: t2) :: ts2) seps).head? = some c0 := by
        rw [hrest]; rfl
      obtain ⟨tl, htl, hlast⟩ := interleave_getLast ts2 seps (c0 :: t2)
        (fun x hx => (hgood x hx).1) (by simpa using hlen)
      have htlgood : goodToken tl := hgood tl (getLast_opt_mem _ tl htl)
      have hstrip : stripEnds isPyWS (interleaveChars ((c0 :: t2) :: ts2) seps)
          = interleaveChars ((c0 :: t2) :: ts2) seps := by
        apply stripEnds_eq_self_of_ends
        · intro c hcc
          rw [hhead] at hcc
          injection hcc with hcc
          exact hcc ▸ goodToken_not_ws hgt c0 (by simp)
        · intro c hcc
          rw [hlast] at hcc
          exact goodToken_not_ws htlgood c (getLast_opt_mem tl c hcc)
      have hbrL : dropBracketL (interleaveChars ((c0 :: t2) :: ts2) seps)
          = interleaveChars ((c0 :: t2) :: ts2) seps := by
        have hno : ¬ ((interleaveChars ((c0 :: t2) :: ts2) seps).head? = some '[') := by
          rw [hhead]
          intro hcc
          injection hcc with hcc
          exact (hgt.2 c0 (by simp)).2.2.2.1 hcc
        simp [dropBracketL, hno]
      have hbrR : dropBracketR (interleaveChars ((c0 :: t2) :: ts2) seps)
          = interleaveChars ((c0 :: t2) :: ts2) seps := by
        have hno : ¬ ((interleaveChars ((c0 :: t2) :: ts2) seps).getLast? = some ']') := by
          rw [hlast]
          intro hcc
          exact (htlgood.2 ']' (getLast_opt_mem tl ']' hcc)).2.2.2.2 rfl
        simp [dropBracketR, hno]
      constructor
      · show (splitChars urlSep (dropBracketR (dropBracketL (stripEnds isPyWS
            (interleaveChars ((c0 :: t2) :: ts2) seps))))).filterMap cleanPart = _
        rw [hstrip, hbrL, hbrR]
        exact filterMap_splitChars_interleave _ _ hgood hseps hlen
      · have hstripne : ∀ s ∈ ((c0 :: t2) :: ts2).map (fun t => addScheme (String.mk t)),
            pyStrip s ≠ "" := by
          intro s hs
          obtain ⟨t0, ht0, rfl⟩ := List.mem_map.1 hs
          exact addScheme_strip_ne t0 (hgood t0 ht0)
        exact contentsGetUrls_of_list _ (by simp) hstripne jl

/-- C3 witness: the general statement applied to the three tokens of the
example joined by a comma and an ASCII semicolon. -/
theorem C3_url_split_witness :
    parse_urls_string (String.mk (interleaveChars
        [['a', '.', 'c', 'o', 'm'], ['b', '.', 'c', 'o', 'm'], ['c', '.', 'c', 'o', 'm']]
        [',', ';']))
      = ["https://a.com", "https://b.com", "https://c.com"] := by
  have h := (C3_url_split_amended.2
    [['a', '.', 'c', 'o', 'm'], ['b', '.', 'c', 'o', 'm'], ['c', '.', 'c', 'o', 'm']]
    [',', ';'] none (by decide) (by decide) (by decide)).1
  exact h

/-! ## C1 — formatting failure after a successful dispatch -/

/-- C1 counterexample: a 2xx response whose `results` field is a number
makes the formatter raise (`len` of a number); the generator has already
yielded the raw JSON result message, so the caller observes that success
output followed by the error pair — the claim that only the error pair is
observable is false on the code. -/
theorem C1_format_failure_counterexample :
    searchFormat (.jobj [("results", .jnum 5)]) "q" = .error "object has no len()"
    ∧ (searchInvoke { emptySearchParams with query := some "q" } (some "k")
          (.ok (.jobj [("results", .jnum 5)]))).msgs
        = Msg.json (.jobj [("results", .jnum 5)])
            :: errPair "Error: object has no len()" :=
  ⟨rfl, rfl⟩

/-- C1 amended: when the HTTP dispatch succeeds but the formatter raises,
the invocation emits exactly the raw JSON result message (already yielded
before formatting) followed by the error pair; the formatted text message
and any derived variable messages are suppressed. -/
theorem C1_format_failure_amended :
    (∀ (p : SearchParams) (k : String) (body : JVal) (q em : String),
      p.query = some q → q ≠ "" → searchFormat body q = .error em →
      (searchInvoke p (some k) (.ok body)).msgs
        = Msg.json body :: errPair ("Error: " ++ em))
    ∧ (∀ (p : SimilarParams) (k : String) (body : JVal) (u em : String),
      p.url = some u → u ≠ "" → similarFormat body u = .error em →
      (similarInvoke p (some k) (.ok body)).msgs
        = Msg.json body :: errPair ("Error: " ++ em)) := by
  constructor
  · intro p k body q em hq hne hfmt
    simp [searchInvoke, hq, hne, hfmt]
  · intro p k body u em hu hne hfmt
    simp [similarInvoke, hu, hne, hfmt]

/-- C1 witness: the amended statement at a concrete malformed body. -/
theorem C1_format_failure_witness :
    (searchInvoke { emptySearchParams with query := some "q" } (some "k")
        (.ok (.jobj [("results", .jbool true)]))).msgs
      = Msg.json (.jobj [("results", .jbool true)])
          :: errPair ("Error: " ++ "object has no len()") :=
  C1_format_failure_amended.1 _ "k" _ "q" "object has no len()" rfl
    (by decide) rfl

/-! ## C2 — one error pair per failure -/

/-- C2 counterexample: the contents tool's missing-credential path emits a
mock text and a mock JSON, not an ErrorResult — so "every failure emits
exactly one ErrorResult plus one plain-text error" is false on the code. -/
theorem C2_error_pair_counterexample :
    (contentsInvoke emptyContentsParams none none (.ok .jnull)).msgs = mockMsgs
    ∧ ∀ m, (contentsInvoke emptyContentsParams none none (.ok .jnull)).msgs
        ≠ errPair m := by
  constructor
  · rfl
  · intro m h
    simp [mockMsgs, errPair, contentsInvoke] at h

/-- C2 amended: every failure emits exactly one structured
`{status: "error", error: m}` message and one plain-text message
`"Error: " + m` carrying the same message, and nothing else — except that
(a) a formatting failure after a successful dispatch is additionally
preceded by the already-yielded raw JSON result message, and (b) the
contents tool's missing-credential failure takes the mock fallback instead
of emitting an error pair. -/
theorem C2_error_pair_amended :
    (∀ (p : SearchParams) (d : Dispatch),
      (searchInvoke p none d).msgs = errPair "Error: \x27exa_api_key\x27")
    ∧ (∀ (p : SearchParams) (k : String) (d : Dispatch),
      p.query = none ∨ p.query = some "" →
      (searchInvoke p (some k) d).msgs = errPair "Error: Search query is required")
    ∧ (∀ (p : SearchParams) (k : String) (d : Dispatch) (q m : String),
      p.query = some q → q ≠ "" →
      dispatchFailMsg "Error when calling Exa Search API: " d = some m →
      (searchInvoke p (some k) d).msgs = errPair m)
    ∧ (∀ (p : SearchParams) (k : String) (body : JVal) (q em : String),
      p.query = some q → q ≠ "" → searchFormat body q = .error em →
      (searchInvoke p (some k) (.ok body)).msgs
        = Msg.json body :: errPair ("Error: " ++ em))
    ∧ (∀ (p : SimilarParams) (d : Dispatch),
      (similarInvoke p none d).msgs = errPair "Error: \x27exa_api_key\x27")
    ∧ (∀ (p : SimilarParams) (k : String) (d : Dispatch),
      p.url = none ∨ p.url = some "" →
      (similarInvoke p (some k) d).msgs = errPair "Error: URL is required")
    ∧ (∀ (p : SimilarParams) (k : String) (d : Dispatch) (u m : String),
      p.url = some u → u ≠ "" →
      dispatchFailMsg "Error when calling Exa Find Similar API: " d = some m →
      (similarInvoke p (some k) d).msgs = errPair m)
    ∧ (∀ (p : SimilarParams) (k : String) (body : JVal) (u em : String),
      p.url = some u → u ≠ "" → similarFormat body u = .error em →
      (similarInvoke p (some k) (.ok body)).msgs
        = Msg.json body :: errPair ("Error: " ++ em))
    ∧ (∀ (p : AnswerParams) (d : Dispatch),
      (answerInvoke p none d).msgs = errPair "Error: \x27exa_api_key\x27")
    ∧ (∀ (p : AnswerParams) (k : String) (d : Dispatch),
      p.query = none ∨ p.query = some "" →
      (answerInvoke p (some k) d).msgs = errPair "Error: Query is required")
    ∧ (∀ (p : AnswerParams) (k : String) (d : Dispatch) (q m : String),
      p.query = some q → q ≠ "" →
      dispatchFailMsg "Error when calling Exa Answer API: " d = some m →
      (answerInvoke p (some k) d).msgs = errPair m)
    ∧ (∀ (p : AnswerParams) (k : String) (body : JVal) (q em : String),
      p.query = some q → q ≠ "" → answerFormat body q = .error em →
      (answerInvoke p (some k) (.ok body)).msgs
        = Msg.json body :: errPair ("Error: " ++ em))
    ∧ (∀ (p : ContentsParams) (jl : Option (List JVal)) (d : Dispatch),
      (contentsInvoke p none jl d).msgs = mockMsgs)
    ∧ (∀ (p : ContentsParams) (k : String) (jl : Option (List JVal)) (d : Dispatch)
         (m : String),
      contentsGetUrls (p.urls.getD (.jstr "")) jl = .error m →
      (contentsInvoke p (some k) jl d).msgs = errPair ("Error: " ++ m))
    ∧ (∀ (p : ContentsParams) (k : String) (jl : Option (List JVal)) (d : Dispatch)
         (us : List String) (m : String),
      contentsGetUrls (p.urls.getD (.jstr "")) jl = .ok us →
      dispatchFailMsg "Error when calling Exa Contents API: " d = some m →
      (contentsInvoke p (some k) jl d).msgs = errPair m)
    ∧ (∀ (p : ContentsParams) (k : String) (jl : Option (List JVal)) (body : JVal)
         (us : List String) (em : String),
      contentsGetUrls (p.urls.getD (.jstr "")) jl = .ok us →
      contentsFormat body us = .error em →
      (contentsInvoke p (some k) jl (.ok body)).msgs
        = Msg.json body :: errPair ("Error: " ++ em)) := by
  refine ⟨?_, ?_, ?_, ?_, ?_, ?_, ?_, ?_, ?_, ?_, ?_, ?_, ?_, ?_, ?_, ?_⟩
  · intro p d; rfl
  · intro p k d h
    rcases h with h|h <;> simp [searchInvoke, h]
  · intro p k d q m hq hne hd
    cases d with
    | ok body => cases hd
    | transportError t =>
      injection hd with hd
      subst hd
      simp [searchInvoke, hq, hne, dispatchFailMsg]
    | httpError t st b =>
      injection hd with hd
      subst hd
      simp [searchInvoke, hq, hne, dispatchFailMsg]
    | badJson t =>
      injection hd with hd
      subst hd
      simp [searchInvoke, hq, hne, dispatchFailMsg]
  · intro p k body q em hq hne hfmt
    simp [searchInvoke, hq, hne, hfmt]
  · intro p d; rfl
  · intro p k d h
    rcases h with h|h <;> simp [similarInvoke, h]
  · intro p k d u m hu hne hd
    cases d with
    | ok body => cases hd
    | transportError t =>
      injection hd with hd
      subst hd
      simp [similarInvoke, hu, hne, dispatchFailMsg]
    | httpError t st b =>
      injection hd with hd
      subst hd
      simp [similarInvoke, hu, hne, dispatchFailMsg]
    | badJson t =>
      injection hd with hd
      subst hd
      simp [similarInvoke, hu, hne, dispatchFailMsg]
  · intro p k body u em hu hne hfmt
    simp [similarInvoke, hu, hne, hfmt]
  · intro p d; rfl
  · intro p k d h
    rcases h with h|h <;> simp [answerInvoke, h]
  · intro p k d q m hq hne hd
    cases d with
    | ok body => cases hd
    | transportError t =>
      injection hd with hd
      subst hd
      simp [answerInvoke, hq, hne, dispatchFailMsg]
    | httpError t st b =>
      injection hd with hd
      subst hd
      simp [answerInvoke, hq, hne, dispatchFailMsg]
    | badJson t =>
      injection hd with hd
      subst hd
      simp [answerInvoke, hq, hne, dispatchFailMsg]
  · intro p k body q em hq hne hfmt
    simp [answerInvoke, hq, hne, hfmt]
  · intro p jl d; rfl
  · intro p k jl d m h
    simp [contentsInvoke, h]
  · intro p k jl d us m hus hd
    cases d with
    | ok body => cases hd
    | transportError t =>
      injection hd with hd
      subst hd
      simp [contentsInvoke, hus, dispatchFailMsg]
    | httpError t st b =>
      injection hd with hd
      subst hd
      simp [contentsInvoke, hus, dispatchFailMsg]
    | badJson t =>
      injection hd with hd
      subst hd
      simp [contentsInvoke, hus, dispatchFailMsg]
  · intro p k jl body us em hus hfmt
    simp [contentsInvoke, hus, hfmt]

/-- C2 witness: the amended statement at concrete failures — a missing
query with a pending transport error, and a 401 response whose emitted
message carries the status code. -/
theorem C2_error_pair_witness :
    (searchInvoke emptySearchParams (some "k") (.transportError "boom")).msgs
        = errPair "Error: Search query is required"
    ∧ (searchInvoke { emptySearchParams with query := some "q" } (some "k")
          (.httpError "401 Client Error" 401 "Unauthorized")).msgs
        = errPair ("Error when calling Exa Search API: 401 Client Error - Status code: 401 - Response: Unauthorized") :=
  ⟨C2_error_pair_amended.2.1 emptySearchParams "k" _ (Or.inl rfl),
   C2_error_pair_amended.2.2.1 _ "k" _ "q"
     "Error when calling Exa Search API: 401 Client Error - Status code: 401 - Response: Unauthorized"
     rfl (by decide) rfl⟩

/-! ## C7 — required-field validation before any HTTP call -/

/-- C7 counterexample: when the credential key is also missing, the
contents tool's `except KeyError` mock path fires before the required-URLs
check, so a missing required field yields the mock pair rather than a
validation error (though still with no HTTP call). -/
theorem C7_validation_counterexample :
    contentsInvoke emptyContentsParams none none (.ok .jnull)
        = ⟨mockMsgs, none⟩
    ∧ ∀ m, (contentsInvoke emptyContentsParams none none (.ok .jnull)).msgs
        ≠ errPair m := by
  constructor
  · rfl
  · intro m h
    simp [mockMsgs, errPair, contentsInvoke] at h

/-- C7 amended: with credentials present, a missing or empty primary field
(query, URL, or URL collection after normalization) makes the invocation
emit the validation error pair and send nothing; conversely, a payload is
handed to the HTTP client only when the credential lookup and the
required-field check both passed.  The contents tool's missing-credential
mock path bypasses validation but still sends nothing. -/
theorem C7_validation_amended :
    (∀ (p : SearchParams) (k : String) (d : Dispatch),
      p.query = none ∨ p.query = some "" →
      searchInvoke p (some k) d
        = ⟨errPair "Error: Search query is required", none⟩)
    ∧ (∀ (p : SimilarParams) (k : String) (d : Dispatch),
      p.url = none ∨ p.url = some "" →
      similarInvoke p (some k) d = ⟨errPair "Error: URL is required", none⟩)
    ∧ (∀ (p : AnswerParams) (k : String) (d : Dispatch),
      p.query = none ∨ p.query = some "" →
      answerInvoke p (some k) d = ⟨errPair "Error: Query is required", none⟩)
    ∧ (∀ (p : ContentsParams) (k : String) (jl : Option (List JVal)) (d : Dispatch)
         (m : String),
      contentsGetUrls (p.urls.getD (.jstr "")) jl = .error m →
      contentsInvoke p (some k) jl d = ⟨errPair ("Error: " ++ m), none⟩)
    ∧ (∀ (p : ContentsParams) (jl : Option (List JVal)) (d : Dispatch),
      contentsInvoke p none jl d = ⟨mockMsgs, none⟩)
    ∧ (∀ (p : SearchParams) (cred : Option String) (d : Dispatch),
      (searchInvoke p cred d).sent.isSome →
      ∃ q, p.query = some q ∧ q ≠ "" ∧ cred.isSome)
    ∧ (∀ (p : SimilarParams) (cred : Option String) (d : Dispatch),
      (similarInvoke p cred d).sent.isSome →
      ∃ u, p.url = some u ∧ u ≠ "" ∧ cred.isSome)
    ∧ (∀ (p : AnswerParams) (cred : Option String) (d : Dispatch),
      (answerInvoke p cred d).sent.isSome →
      ∃ q, p.query = some q ∧ q ≠ "" ∧ cred.isSome)
    ∧ (∀ (p : ContentsParams) (cred : Option String) (jl : Option (List JVal))
         (d : Dispatch),
      (contentsInvoke p cred jl d).sent.isSome →
      (∃ us, contentsGetUrls (p.urls.getD (.jstr "")) jl = .ok us) ∧ cred.isSome) := by
  refine ⟨?_, ?_, ?_, ?_, ?_, ?_, ?_, ?_, ?_⟩
  · intro p k d h
    rcases h with h|h <;> simp [searchInvoke, h]
  · intro p k d h
    rcases h with h|h <;> simp [similarInvoke, h]
  · intro p k d h
    rcases h with h|h <;> simp [answerInvoke, h]
  · intro p k jl d m h
    simp [contentsInvoke, h]
  · intro p jl d; rfl
  · intro p cred d hs
    cases cred with
    | none => simp [searchInvoke] at hs
    | some k =>
      cases hq : p.query with
      | none => simp [searchInvoke, hq] at hs
      | some q =>
        by_cases hne : q = ""
        · simp [searchInvoke, hq, hne] at hs
        · exact ⟨q, rfl, hne, rfl⟩
  · intro p cred d hs
    cases cred with
    | none => simp [similarInvoke] at hs
    | some k =>
      cases hu : p.url with
      | none => simp [similarInvoke, hu] at hs
      | some u =>
        by_cases hne : u = ""
        · simp [similarInvoke, hu, hne] at hs
        · exact ⟨u, rfl, hne, rfl⟩
  · intro p cred d hs
    cases cred with
    | none => simp [answerInvoke] at hs
    | some k =>
      cases hq : p.query with
      | none => simp [answerInvoke, hq] at hs
      | some q =>
        by_cases hne : q = ""
        · simp [answerInvoke, hq, hne] at hs
        · exact ⟨q, rfl, hne, rfl⟩
  · intro p cred jl d hs
    cases cred with
    | none => simp [contentsInvoke] at hs
    | some k =>
      cases hg : contentsGetUrls (p.urls.getD (.jstr "")) jl with
      | error m => simp [contentsInvoke, hg] at hs
      | ok us => exact ⟨⟨us, rfl⟩, rfl⟩

/-- C7 witness: a missing query fails the validation with no payload sent,
even though a decodable 2xx response was available. -/
theorem C7_validation_witness :
    searchInvoke emptySearchParams (some "k") (.ok (.jobj []))
      = ⟨errPair "Error: Search query is required", none⟩ :=
  C7_validation_amended.1 emptySearchParams "k" _ (Or.inl rfl)

/-! ## C9 — derived URL/image outputs of the search tool -/

theorem filterMap_sublist_of_le {α β : Type} (f g : α → Option β)
    (h : ∀ a b, f a = some b → g a = some b) :
    ∀ l : List α, List.Sublist (l.filterMap f) (l.filterMap g) := by
  intro l
  induction l with
  | nil => exact List.Sublist.slnil
  | cons a l ih =>
    rw [List.filterMap_cons, List.filterMap_cons]
    cases hf : f a with
    | none =>
      cases hg : g a with
      | none => exact ih
      | some b => exact List.Sublist.cons b ih
    | some b =>
      rw [h a b hf]
      exact List.Sublist.cons₂ b ih

/-- C9 counterexample: a result whose `url` field is not an absolute
address still lands verbatim in the `urls` variable output — the extraction
does not filter URLs to well-formed absolute addresses (only images are
filtered). -/
theorem C9_derived_outputs_counterexample :
    ((searchInvoke { emptySearchParams with query := some "q" } (some "k")
        (.ok (.jobj [("results",
          .jarr [.jobj [("url", .jstr "relative/path")]])]))).msgs.get? 2)
      = some (Msg.var "urls" (.jarr [.jstr "relative/path"]))
    ∧ hasSchemeChars "relative/path".toList = false :=
  ⟨rfl, by decide⟩

/-- C9 amended: a successful search invocation emits the raw JSON message,
the formatted text, then the `urls` and `images` variable outputs; the
`urls` output collects every truthy `url` field verbatim (no filtering to
absolute addresses), the `images` output keeps only non-blank strings with
an `http://` or `https://` scheme, and both preserve the order of the
source results. -/
theorem C9_derived_outputs_amended :
    (∀ (p : SearchParams) (k : String) (body : JVal) (q md : String),
      p.query = some q → q ≠ "" → searchFormat body q = .ok md →
      (searchInvoke p (some k) (.ok body)).msgs
        = [Msg.json body, Msg.text md,
           Msg.var "urls" (.jarr (extract_urls (searchResultsList body))),
           Msg.var "images" (.jarr (extract_images (searchResultsList body)))])
    ∧ (∀ (rs : List JVal), ∀ v ∈ extract_images rs,
        ∃ s, v = JVal.jstr s ∧ hasSchemeChars s.toList = true)
    ∧ (∀ rs : List JVal, List.Sublist (extract_urls rs) (rs.filterMap (fun r => jlookup r "url")))
    ∧ (∀ rs : List JVal, List.Sublist (extract_images rs) (rs.filterMap (fun r => jlookup r "image"))) := by
  refine ⟨?_, ?_, ?_, ?_⟩
  · intro p k body q md hq hne hfmt
    simp [searchInvoke, hq, hne, hfmt]
  · intro rs v hv
    obtain ⟨r, _, hr⟩ := List.mem_filterMap.1 hv
    cases hj : jlookup r "image" with
    | none => rw [hj] at hr; cases hr
    | some w =>
      rw [hj] at hr
      cases w with
      | jstr s =>
        change (if (decide (pyStrip s ≠ "") && hasSchemeChars s.toList) = true
          then some (JVal.jstr s) else none) = some v at hr
        split_ifs at hr with hc
        injection hr with hr
        rw [Bool.and_eq_true] at hc
        exact ⟨s, hr.symm, hc.2⟩
      | jnull => cases hr
      | jbool b => cases hr
      | jnum n => cases hr
      | jarr xs => cases hr
      | jobj fs => cases hr
  · intro rs
    apply filterMap_sublist_of_le
    intro a b hab
    revert hab
    cases hj : jlookup a "url" with
    | none => intro hab; cases hab
    | some u =>
      intro hab
      change (if pyTruthy u = true then some u else none) = some b at hab
      split_ifs at hab
      injection hab with hab
      rw [hab]
  · intro rs
    apply filterMap_sublist_of_le
    intro a b hab
    revert hab
    cases hj : jlookup a "image" with
    | none => intro hab; cases hab
    | some w =>
      cases w with
      | jstr s =>
        intro hab
        change (if (decide (pyStrip s ≠ "") && hasSchemeChars s.toList) = true
          then some (JVal.jstr s) else none) = some b at hab
        split_ifs at hab
        injection hab with hab
        rw [hab]
      | jnull => intro hab; cases hab
      | jbool bb => intro hab; cases hab
      | jnum n => intro hab; cases hab
      | jarr xs => intro hab; cases hab
      | jobj fs => intro hab; cases hab

/-- C9 witness: the amended statement at a concrete successful response,
giving the four messages in order. -/
theorem C9_derived_outputs_witness :
    (searchInvoke { emptySearchParams with query := some "q" } (some "k")
        (.ok (.jobj [("results", .jarr [.jobj [("url", .jstr "https://a.com"),
          ("image", .jstr "https://a.com/i.png")]])]))).msgs.length = 4 := by
  obtain ⟨md, hmd⟩ : ∃ md, searchFormat
      (.jobj [("results", .jarr [.jobj [("url", .jstr "https://a.com"),
        ("image", .jstr "https://a.com/i.png")]])]) "q" = .ok md := ⟨_, rfl⟩
  have h := C9_derived_outputs_amended.1
    { emptySearchParams with query := some "q" } "k"
    (.jobj [("results", .jarr [.jobj [("url", .jstr "https://a.com"),
      ("image", .jstr "https://a.com/i.png")]])]) "q" md rfl (by decide) hmd
  rw [h]
  rfl

/-! ## C10 — contents formatter treats results as a URL-keyed mapping -/

theorem any_key_lookup (k : String) :
    ∀ fs : List (String × JVal),
      (fs.any fun kv => kv.1 == k) = (List.lookup k fs).isSome := by
  intro fs
  induction fs with
  | nil => rfl
  | cons kv rest ih =>
    obtain ⟨k2, v⟩ := kv
    by_cases h : k2 = k
    · subst h
      simp [List.lookup]
    · have h1 : (k2 == k) = false := by simp [h]
      have h2 : (k == k2) = false := by simp [Ne.symm h]
      simp [List.lookup, List.any_cons, h1, h2, ih]

theorem renderUrlData_header (u : String) (d : JVal) (s : String)
    (h : renderUrlData u d = .ok s) :
    ∃ r, s = "### URL: [" ++ u ++ "](" ++ u ++ ")\n\n" ++ r := by
  unfold renderUrlData at h
  cases h1 : titlePart d with
  | error e => simp only [h1] at h; cases h
  | ok s1 =>
    simp only [h1] at h
    cases h2 : summaryPart d with
    | error e => simp only [h2] at h; cases h
    | ok s2 =>
      simp only [h2] at h
      cases h3 : linksPart d with
      | error e => simp only [h3] at h; cases h
      | ok s3 =>
        simp only [h3] at h
        cases h4 : contentPart d with
        | error e => simp only [h4] at h; cases h
        | ok s4 =>
          simp only [h4] at h
          cases h5 : subpagesPart d with
          | error e => simp only [h5] at h; cases h
          | ok s5 =>
            simp only [h5] at h
            injection h with h
            exact ⟨s1 ++ s2 ++ s3 ++ s4 ++ s5 ++ "---\n\n", by
              rw [← h]
              simp [String.append_assoc]⟩

theorem contentsFormat_jobj (fields m : List (String × JVal)) (urls : List String)
    (hres : List.lookup "results" fields = some (.jobj m)) :
    contentsFormat (.jobj fields) urls
      = match contentsSections (.jobj m) urls with
        | .error e => .error e
        | .ok body => .ok ("## Exa Content Extraction Results\n\n" ++ body) := by
  have hne : fields ≠ [] := by
    intro h0
    rw [h0] at hres
    cases hres
  have ht : pyTruthy (.jobj fields) = true := by
    cases fields with
    | nil => exact absurd rfl hne
    | cons a l => simp [pyTruthy]
  have hany : (fields.any fun kv => kv.1 == "results") = true := by
    rw [any_key_lookup, hres]
    rfl
  simp [contentsFormat, ht, pyContainsE, hany, pyGetD, hres]

theorem contentsSection_absent (m : List (String × JVal)) (u : String)
    (hu : List.lookup u m = none) :
    contentsSection (.jobj m) u
      = .ok ("### URL: " ++ u ++ "\n\nNo data available for this URL.\n\n---\n\n") := by
  have hanyu : (m.any fun kv => kv.1 == u) = false := by
    rw [any_key_lookup, hu]
    rfl
  simp [contentsSection, pyContainsE, hanyu]

theorem contentsSection_present (m : List (String × JVal)) (u : String) (d : JVal)
    (hd : List.lookup u m = some d) :
    contentsSection (.jobj m) u = renderUrlData u d := by
  have hanyu : (m.any fun kv => kv.1 == u) = true := by
    rw [any_key_lookup, hd]
    rfl
  simp [contentsSection, pyContainsE, hanyu, pyIndex, hd]

/-- C10: the contents formatter treats the `results` collection as a
mapping keyed by requested URL: when the response is missing/falsy or has
no `results` key at all, it returns exactly "No content data available.";
a requested URL absent from the mapping renders the
"No data available for this URL." section; and a section with content
(headed by the linked URL) is rendered exactly when the URL is a key of
the mapping. -/
theorem C10_contents_results_mapping :
    (∀ (urls : List String) (resp : JVal), pyTruthy resp = false →
      contentsFormat resp urls = .ok "No content data available.")
    ∧ (∀ (urls : List String) (fields : List (String × JVal)),
        List.lookup "results" fields = none →
        contentsFormat (.jobj fields) urls = .ok "No content data available.")
    ∧ (∀ (fields m : List (String × JVal)) (u : String),
        List.lookup "results" fields = some (.jobj m) →
        List.lookup u m = none →
        contentsFormat (.jobj fields) [u]
          = .ok ("## Exa Content Extraction Results\n\n"
              ++ ("### URL: " ++ u ++ "\n\nNo data available for this URL.\n\n---\n\n")))
    ∧ (∀ (fields m : List (String × JVal)) (u : String) (d : JVal) (out : String),
        List.lookup "results" fields = some (.jobj m) →
        List.lookup u m = some d →
        contentsFormat (.jobj fields) [u] = .ok out →
        strOccurs ("### URL: [" ++ u ++ "](" ++ u ++ ")\n\n") out) := by
  refine ⟨?_, ?_, ?_, ?_⟩
  · intro urls resp h
    simp [contentsFormat, h]
  · intro urls fields h
    by_cases ht : pyTruthy (.jobj fields) = true
    · have hany : (fields.any fun kv => kv.1 == "results") = false := by
        rw [any_key_lookup, h]
        rfl
      simp [contentsFormat, ht, pyContainsE, hany]
    · have ht2 : pyTruthy (.jobj fields) = false := by
        cases hb : pyTruthy (.jobj fields)
        · rfl
        · exact absurd hb ht
      simp [contentsFormat, ht2]
  · intro fields m u hres hu
    rw [contentsFormat_jobj fields m [u] hres]
    simp [contentsSections, contentsSection_absent m u hu, String.append_empty]
  · intro fields m u d out hres hd hfmt
    rw [contentsFormat_jobj fields m [u] hres] at hfmt
    have hsec : contentsSections (.jobj m) [u]
        = match renderUrlData u d with
          | .error e => .error e
          | .ok s => .ok (s ++ "") := by
      simp [contentsSections, contentsSection_present m u d hd]
    cases hrud : renderUrlData u d with
    | error e =>
      rw [hrud] at hsec
      rw [hsec] at hfmt
      cases hfmt
    | ok s =>
      rw [hrud] at hsec
      rw [hsec] at hfmt
      obtain ⟨r, hr⟩ := renderUrlData_header u d s hrud
      have hout : "## Exa Content Extraction Results\n\n" ++ (s ++ "") = out := by
        injection hfmt
      refine ⟨"## Exa Content Extraction Results\n\n", r, ?_⟩
      rw [← hout, hr]
      simp [String.append_assoc, String.append_empty]

/-- C10 witness: the mapping behavior at a concrete response that contains
one URL key while a different URL was requested. -/
theorem C10_contents_results_mapping_witness :
    contentsFormat
        (.jobj [("results", .jobj [("https://a.com", .jobj [("title", .jstr "T")])])])
        ["https://b.com"]
      = .ok ("## Exa Content Extraction Results\n\n"
          ++ ("### URL: " ++ "https://b.com"
            ++ "\n\nNo data available for this URL.\n\n---\n\n")) :=
  C10_contents_results_mapping.2.2.1
    [("results", .jobj [("https://a.com", .jobj [("title", .jstr "T")])])]
    [("https://a.com", .jobj [("title", .jstr "T")])] "https://b.com" rfl rfl

end ExaSpec
